import Mathlib

/-!
# Moxie framework: the AI provider gateway (`AIProviderService`)

A shallow embedding of `src/services/AIProviderService.{h,cpp}`, of
`UsageRecord::calculateCost` (`src/models/UsageRecord.h`) and of the slots of
`ChatViewModel` and `UsageViewModel` (`src/viewmodels`) that the claims are about.

* Qt signals are recorded as a list of `Signal` values, in emission order.
  `emit` is a synchronous call, so the value a listener reads from the
  `isProcessing` property during `isProcessingChanged` is the value of
  `m_isProcessing` at the `emit` statement; it is stored in the signal.
* `QNetworkReply*` pointers are natural numbers; `nullptr` is `none`.
  `QNetworkAccessManager::post` returns a pointer that was never returned before.
* A response body is represented by what `QJsonDocument::fromJson` returns on it
  (the Qt parser is library code).
* `double` values are exact rationals.
-/

namespace Moxie

/-! ## Qt JSON values -/

/-- A value of type `QJsonValue`. -/
inductive QJsonValue where
  | null
  | bool (b : Bool)
  | double (d : Rat)
  | string (s : String)
  | array (a : List QJsonValue)
  | object (o : List (String × QJsonValue))
  | undefined

/-- A `QJsonArray`. -/
abbrev QJsonArray := List QJsonValue

/-- A `QJsonObject`: its members, keyed by name. -/
structure QJsonObject where
  entries : List (String × QJsonValue)

namespace QJsonObject

/-- The default-constructed object. -/
def empty : QJsonObject := ⟨[]⟩

/-- The call `obj.contains(key)`. -/
def contains (o : QJsonObject) (key : String) : Bool :=
  o.entries.any (fun e => e.1 == key)

/-- The read access `obj[key]`: `Undefined` when the key is missing. -/
def value (o : QJsonObject) (key : String) : QJsonValue :=
  match o.entries.find? (fun e => e.1 == key) with
  | some e => e.2
  | none => QJsonValue.undefined

/-- The assignment `obj[key] = v`: replaces the member or adds it. -/
def insert (o : QJsonObject) (key : String) (v : QJsonValue) : QJsonObject :=
  if o.contains key then
    ⟨o.entries.map (fun e => if e.1 == key then (key, v) else e)⟩
  else
    ⟨o.entries ++ [(key, v)]⟩

end QJsonObject

namespace QJsonValue

/-- The conversion `toObject()`: the empty object for a non-object. -/
def toObject : QJsonValue → QJsonObject
  | object o => ⟨o⟩
  | _ => QJsonObject.empty

/-- The conversion `toArray()`: the empty array for a non-array. -/
def toArray : QJsonValue → QJsonArray
  | array a => a
  | _ => []

/-- The conversion `toString()`: the null string for a non-string. -/
def toString : QJsonValue → String
  | string s => s
  | _ => ""

/-- The conversion `toInt()`: the number when it is a whole number in `int` range, else `0`. -/
def toInt : QJsonValue → Int
  | double d =>
    if d.den = 1 ∧ -2147483648 ≤ d.num ∧ d.num ≤ 2147483647 then d.num else 0
  | _ => 0

/-- The wrapping of an object as a value. -/
def ofObject (o : QJsonObject) : QJsonValue := object o.entries

end QJsonValue

/-- The indexing `array[i]`: `Undefined` when out of range. -/
def QJsonArray.at (a : QJsonArray) (i : Nat) : QJsonValue :=
  a.getD i QJsonValue.undefined

/-- A `QJsonDocument` as returned by `QJsonDocument::fromJson`: null on a parse
failure, else the top-level array or object. -/
inductive QJsonDocument where
  | null
  | array (a : QJsonArray)
  | object (o : QJsonObject)

namespace QJsonDocument

/-- The test `doc.isObject()`. -/
def isObject : QJsonDocument → Bool
  | object _ => true
  | _ => false

/-- The accessor `doc.object()`: the empty object when the document holds none. -/
def toObject : QJsonDocument → QJsonObject
  | object o => o
  | _ => QJsonObject.empty

end QJsonDocument

/-! ## Qt strings -/

/-- The value of an ASCII digit, as `qArgDigitValue` computes it. -/
def argDigit (c : Char) : Option Nat :=
  if c.isDigit then some (c.toNat - 48) else none

/-- The number read after a `%` (one or two digits), the characters it spans and
the rest of the text; `none` when no digit follows. -/
def scanEscape : List Char → Option (Nat × List Char × List Char)
  | [] => none
  | [d1] => (argDigit d1).map (fun a => (a, [d1], []))
  | d1 :: d2 :: rest =>
    match argDigit d1, argDigit d2 with
    | some a, some b => some (10 * a + b, [d1, d2], rest)
    | some a, none => some (a, [d1], d2 :: rest)
    | none, _ => none

/-- A piece of a format string: a plain character or a place marker with its text. -/
inductive ArgPiece where
  | text (c : Char)
  | escape (n : Nat) (raw : List Char)
  deriving DecidableEq

/-- The scan of `QString::arg` for place markers `%N` and `%LN`, as `findArgEscapes` does it. -/
def argPieces : Nat → List Char → List ArgPiece
  | 0, _ => []
  | _, [] => []
  | fuel + 1, c :: rest =>
    if c = '%' then
      match rest with
      | 'L' :: afterL =>
        match scanEscape afterL with
        | some (n, raw, remaining) => ArgPiece.escape n ('%' :: 'L' :: raw) :: argPieces fuel remaining
        | none => ArgPiece.text '%' :: ArgPiece.text 'L' :: argPieces fuel afterL
      | _ =>
        match scanEscape rest with
        | some (n, raw, remaining) => ArgPiece.escape n ('%' :: raw) :: argPieces fuel remaining
        | none => ArgPiece.text '%' :: argPieces fuel rest
    else ArgPiece.text c :: argPieces fuel rest

/-- The lowest place-marker number among the pieces. -/
def minEscape : List ArgPiece → Option Nat
  | [] => none
  | ArgPiece.text _ :: ps => minEscape ps
  | ArgPiece.escape n _ :: ps =>
    match minEscape ps with
    | some m => some (min n m)
    | none => some n

/-- The call `format.arg(a)`: every occurrence of the lowest-numbered place marker
is replaced by `a`; a format without place markers is returned unchanged. -/
def QString.arg (format a : String) : String :=
  let pieces := argPieces format.length format.data
  match minEscape pieces with
  | none => format
  | some m =>
    String.mk (pieces.flatMap (fun p =>
      match p with
      | ArgPiece.text c => [c]
      | ArgPiece.escape n raw => if n = m then a.data else raw))

/-- The search for `sub` at some position of `s`, on characters. -/
def containsChars : List Char → List Char → Bool
  | [], sub => sub.isEmpty
  | c :: cs, sub => sub.isPrefixOf (c :: cs) || containsChars cs sub

/-- The call `s.contains(sub)`, case sensitive as the default of `QString::contains` is. -/
def QString.contains (s sub : String) : Bool :=
  containsChars s.data sub.data

/-! ## Qt network types -/

/-- The `QNetworkReply::NetworkError` codes the service distinguishes. -/
inductive NetworkError where
  | NoError
  | ConnectionRefusedError
  | Other (code : Nat)
  deriving DecidableEq

/-- A `QNetworkRequest`: URL and headers set on it, in order. -/
structure QNetworkRequest where
  url : String
  headers : List (String × String)

namespace QNetworkRequest

/-- The default-constructed request. -/
def empty : QNetworkRequest := ⟨"", []⟩

/-- The call `setUrl`. -/
def setUrl (r : QNetworkRequest) (url : String) : QNetworkRequest :=
  { r with url := url }

/-- The calls `setHeader` and `setRawHeader`: sets the header, replacing an earlier value. -/
def setRawHeader (r : QNetworkRequest) (name value : String) : QNetworkRequest :=
  { r with headers := r.headers.filter (fun h => h.1 != name) ++ [(name, value)] }

end QNetworkRequest

/-- A finished `QNetworkReply`: pointer identity, `error()`, `errorString()` and
the document `QJsonDocument::fromJson(readAll())`. -/
structure QNetworkReply where
  handle : Nat
  error : NetworkError
  errorString : String
  document : QJsonDocument

/-- The `QNetworkAccessManager`: the POST calls handed to it so far, oldest first. -/
structure QNetworkAccessManager where
  posted : List (QNetworkRequest × QJsonObject)

/-- The call `post(request, body)`: records the call and returns a new reply pointer. -/
def QNetworkAccessManager.post (m : QNetworkAccessManager) (request : QNetworkRequest)
    (body : QJsonObject) : QNetworkAccessManager × Nat :=
  (⟨m.posted ++ [(request, body)]⟩, m.posted.length + 1)

/-! ## Signals -/

/-- The signals of `AIProviderService`. -/
inductive Signal where
  | responseReceived (response : String)
  | errorOccurred (error : String)
  | isProcessingChanged (isProcessing : Bool)
  | currentProviderChanged (currentProvider : String)
  | tokensUsed (inputTokens outputTokens : Int)
  deriving DecidableEq

/-! ## The service -/

/-- The member variables of `AIProviderService`. -/
structure AIProviderService where
  m_networkManager : QNetworkAccessManager
  m_isProcessing : Bool
  m_currentProvider : String
  m_apiKey : String
  m_currentReply : Option Nat

namespace AIProviderService

/-- The constructor. -/
def init : AIProviderService :=
  { m_networkManager := ⟨[]⟩
    m_isProcessing := false
    m_currentProvider := "Ollama"
    m_apiKey := ""
    m_currentReply := none }

/-- The setter `setCurrentProvider`. -/
def setCurrentProvider (self : AIProviderService) (provider : String) :
    AIProviderService × List Signal :=
  if self.m_currentProvider ≠ provider then
    ({ self with m_currentProvider := provider }, [Signal.currentProviderChanged provider])
  else
    (self, [])

/-- The list `availableProviders()`. -/
def availableProviders : List String :=
  ["Ollama", "GroqCloud", "Gemini", "DeepSeek", "OpenAI", "Anthropic"]

/-- The predicate `providerRequiresApiKey`. -/
def providerRequiresApiKey (provider : String) : Bool :=
  provider ≠ "Ollama"

/-- The text `getProviderInfo`. -/
def getProviderInfo (provider : String) : String :=
  if provider = "Ollama" then
    "100% FREE - Runs locally on your computer. Install from https://ollama.ai"
  else if provider = "GroqCloud" then
    "FREE tier: 14,400 requests/day. Ultra-fast inference. Get key at https://console.groq.com"
  else if provider = "Gemini" then
    "FREE tier: 15 requests/minute. Get key at https://aistudio.google.com/apikey"
  else if provider = "DeepSeek" then
    "Very affordable pricing. Get key at https://platform.deepseek.com"
  else if provider = "OpenAI" then
    "Industry standard. Pay-as-you-go. Get key at https://platform.openai.com/api-keys"
  else if provider = "Anthropic" then
    "Claude models. Pay-as-you-go. Get key at https://console.anthropic.com"
  else ""

/-- The private `getDefaultModel()`. -/
def getDefaultModel (self : AIProviderService) : String :=
  if self.m_currentProvider = "Ollama" then "llama3.2"
  else if self.m_currentProvider = "GroqCloud" then "llama-3.3-70b-versatile"
  else if self.m_currentProvider = "Gemini" then "gemini-1.5-flash"
  else if self.m_currentProvider = "DeepSeek" then "deepseek-chat"
  else if self.m_currentProvider = "OpenAI" then "gpt-4o"
  else if self.m_currentProvider = "Anthropic" then "claude-3-5-sonnet-20241022"
  else "llama3.2"

/-- The list `availableModels()`. -/
def availableModels (self : AIProviderService) : List String :=
  if self.m_currentProvider = "OpenAI" then
    ["gpt-4o", "gpt-4-turbo", "gpt-4", "gpt-3.5-turbo"]
  else if self.m_currentProvider = "Anthropic" then
    ["claude-3-5-sonnet-20241022", "claude-3-opus-20240229", "claude-3-sonnet-20240229",
      "claude-3-haiku-20240307"]
  else if self.m_currentProvider = "Gemini" then
    ["gemini-2.0-flash-exp", "gemini-1.5-pro", "gemini-1.5-flash"]
  else if self.m_currentProvider = "DeepSeek" then
    ["deepseek-chat", "deepseek-coder", "deepseek-reasoner"]
  else if self.m_currentProvider = "Ollama" then
    ["llama3.2", "llama3.1", "mistral", "phi3", "gemma2", "qwen2.5"]
  else if self.m_currentProvider = "GroqCloud" then
    ["llama-3.3-70b-versatile", "llama-3.1-8b-instant", "mixtral-8x7b-32768", "gemma2-9b-it"]
  else []

/-- The getter `getApiKey`. -/
def getApiKey (self : AIProviderService) : String := self.m_apiKey

/-- The setter `setApiKey`. -/
def setApiKey (self : AIProviderService) (key : String) : AIProviderService × List Signal :=
  ({ self with m_apiKey := key }, [])

/-- The builder `createOpenAIRequest`. -/
def createOpenAIRequest (prompt model : String) (temperature : Rat) : QJsonObject :=
  let json := QJsonObject.empty
  let json := json.insert "model" (QJsonValue.string model)
  let messages : QJsonArray := []
  let userMessage := QJsonObject.empty
  let userMessage := userMessage.insert "role" (QJsonValue.string "user")
  let userMessage := userMessage.insert "content" (QJsonValue.string prompt)
  let messages := messages ++ [QJsonValue.ofObject userMessage]
  let json := json.insert "messages" (QJsonValue.array messages)
  let json := json.insert "temperature" (QJsonValue.double temperature)
  let json := json.insert "stream" (QJsonValue.bool false)
  json

/-- The builder `createAnthropicRequest`. -/
def createAnthropicRequest (prompt model : String) (temperature : Rat) : QJsonObject :=
  let json := QJsonObject.empty
  let json := json.insert "model" (QJsonValue.string model)
  let messages : QJsonArray := []
  let userMessage := QJsonObject.empty
  let userMessage := userMessage.insert "role" (QJsonValue.string "user")
  let userMessage := userMessage.insert "content" (QJsonValue.string prompt)
  let messages := messages ++ [QJsonValue.ofObject userMessage]
  let json := json.insert "messages" (QJsonValue.array messages)
  let json := json.insert "max_tokens" (QJsonValue.double 4096)
  let json := json.insert "temperature" (QJsonValue.double temperature)
  json

/-- The builder `createGeminiRequest`; the model is unused. -/
def createGeminiRequest (prompt _model : String) (temperature : Rat) : QJsonObject :=
  let json := QJsonObject.empty
  let contents : QJsonArray := []
  let content := QJsonObject.empty
  let content := content.insert "role" (QJsonValue.string "user")
  let parts : QJsonArray := []
  let textPart := QJsonObject.empty
  let textPart := textPart.insert "text" (QJsonValue.string prompt)
  let parts := parts ++ [QJsonValue.ofObject textPart]
  let content := content.insert "parts" (QJsonValue.array parts)
  let contents := contents ++ [QJsonValue.ofObject content]
  let json := json.insert "contents" (QJsonValue.array contents)
  let generationConfig := QJsonObject.empty
  let generationConfig := generationConfig.insert "temperature" (QJsonValue.double temperature)
  let generationConfig := generationConfig.insert "maxOutputTokens" (QJsonValue.double 4096)
  let json := json.insert "generationConfig" (QJsonValue.ofObject generationConfig)
  json

/-- The builder `createOllamaRequest`. -/
def createOllamaRequest (prompt model : String) (temperature : Rat) : QJsonObject :=
  let json := QJsonObject.empty
  let json := json.insert "model" (QJsonValue.string model)
  let messages : QJsonArray := []
  let userMessage := QJsonObject.empty
  let userMessage := userMessage.insert "role" (QJsonValue.string "user")
  let userMessage := userMessage.insert "content" (QJsonValue.string prompt)
  let messages := messages ++ [QJsonValue.ofObject userMessage]
  let json := json.insert "messages" (QJsonValue.array messages)
  let json := json.insert "stream" (QJsonValue.bool false)
  let options := QJsonObject.empty
  let options := options.insert "temperature" (QJsonValue.double temperature)
  let json := json.insert "options" (QJsonValue.ofObject options)
  json

/-- The last two statements of both send functions:
`QJsonDocument doc(json); m_currentReply = m_networkManager->post(request, doc.toJson());`. -/
def postJson (self : AIProviderService) (request : QNetworkRequest) (json : QJsonObject) :
    AIProviderService :=
  let r := self.m_networkManager.post request json
  { self with m_networkManager := r.1, m_currentReply := some r.2 }

/-- The URL of the Gemini endpoint, built with two `arg` calls. -/
def geminiUrl (actualModel apiKey : String) : String :=
  QString.arg
    (QString.arg
      "https://generativelanguage.googleapis.com/v1beta/models/%1:generateContent?key=%2"
      actualModel)
    apiKey

/-- The slot `sendRequest(prompt, model, temperature)`. -/
def sendRequest (self : AIProviderService) (prompt model : String) (temperature : Rat) :
    AIProviderService × List Signal :=
  if self.m_isProcessing then
    (self, [Signal.errorOccurred "Already processing a request"])
  else if providerRequiresApiKey self.m_currentProvider ∧ self.m_apiKey = "" then
    (self, [Signal.errorOccurred ("API key not configured for " ++ self.m_currentProvider)])
  else
    let self := { self with m_isProcessing := true }
    let emitted := [Signal.isProcessingChanged self.m_isProcessing]
    let actualModel := if model = "" then self.getDefaultModel else model
    let request := QNetworkRequest.empty
    if self.m_currentProvider = "OpenAI" then
      let request := request.setUrl "https://api.openai.com/v1/chat/completions"
      let request := request.setRawHeader "Content-Type" "application/json"
      let request := request.setRawHeader "Authorization" ("Bearer " ++ self.m_apiKey)
      let json := createOpenAIRequest prompt actualModel temperature
      (self.postJson request json, emitted)
    else if self.m_currentProvider = "Anthropic" then
      let request := request.setUrl "https://api.anthropic.com/v1/messages"
      let request := request.setRawHeader "Content-Type" "application/json"
      let request := request.setRawHeader "x-api-key" self.m_apiKey
      let request := request.setRawHeader "anthropic-version" "2023-06-01"
      let json := createAnthropicRequest prompt actualModel temperature
      (self.postJson request json, emitted)
    else if self.m_currentProvider = "Gemini" then
      let url := geminiUrl actualModel self.m_apiKey
      let request := request.setUrl url
      let request := request.setRawHeader "Content-Type" "application/json"
      let json := createGeminiRequest prompt actualModel temperature
      (self.postJson request json, emitted)
    else if self.m_currentProvider = "DeepSeek" ∨ self.m_currentProvider = "GroqCloud" then
      let endpoint :=
        if self.m_currentProvider = "DeepSeek" then "https://api.deepseek.com/v1/chat/completions"
        else "https://api.groq.com/openai/v1/chat/completions"
      let request := request.setUrl endpoint
      let request := request.setRawHeader "Content-Type" "application/json"
      let request := request.setRawHeader "Authorization" ("Bearer " ++ self.m_apiKey)
      let json := createOpenAIRequest prompt actualModel temperature
      (self.postJson request json, emitted)
    else if self.m_currentProvider = "Ollama" then
      let request := request.setUrl "http://localhost:11434/api/chat"
      let request := request.setRawHeader "Content-Type" "application/json"
      let json := createOllamaRequest prompt actualModel temperature
      (self.postJson request json, emitted)
    else
      let self := { self with m_isProcessing := false }
      (self, emitted ++ [Signal.isProcessingChanged self.m_isProcessing,
        Signal.errorOccurred ("Unsupported provider: " ++ self.m_currentProvider)])

/-- The Gemini conversion loop of `sendChatRequest`: one entry per message. -/
def geminiContents (messages : List QJsonObject) : QJsonArray :=
  messages.map (fun msg =>
    let content := QJsonObject.empty
    let role := (msg.value "role").toString
    let content := content.insert "role"
      (QJsonValue.string (if role = "assistant" then "model" else "user"))
    let parts : QJsonArray := []
    let textPart := QJsonObject.empty
    let textPart := textPart.insert "text" (QJsonValue.string (msg.value "content").toString)
    let parts := parts ++ [QJsonValue.ofObject textPart]
    let content := content.insert "parts" (QJsonValue.array parts)
    QJsonValue.ofObject content)

/-- The slot `sendChatRequest(messages, model)`. The provider chain has no final
`else`: for any other provider the default request and the empty object are posted. -/
def sendChatRequest (self : AIProviderService) (messages : List QJsonObject) (model : String) :
    AIProviderService × List Signal :=
  if self.m_isProcessing then
    (self, [Signal.errorOccurred "Already processing a request"])
  else if providerRequiresApiKey self.m_currentProvider ∧ self.m_apiKey = "" then
    (self, [Signal.errorOccurred ("API key not configured for " ++ self.m_currentProvider)])
  else
    let self := { self with m_isProcessing := true }
    let emitted := [Signal.isProcessingChanged self.m_isProcessing]
    let actualModel := if model = "" then self.getDefaultModel else model
    let request := QNetworkRequest.empty
    let messagesArray : QJsonArray := messages.map QJsonValue.ofObject
    let json := QJsonObject.empty
    if self.m_currentProvider = "Ollama" then
      let request := request.setUrl "http://localhost:11434/api/chat"
      let request := request.setRawHeader "Content-Type" "application/json"
      let json := json.insert "model" (QJsonValue.string actualModel)
      let json := json.insert "messages" (QJsonValue.array messagesArray)
      let json := json.insert "stream" (QJsonValue.bool false)
      (self.postJson request json, emitted)
    else if self.m_currentProvider = "OpenAI" ∨ self.m_currentProvider = "DeepSeek"
        ∨ self.m_currentProvider = "GroqCloud" then
      let endpoint :=
        if self.m_currentProvider = "OpenAI" then "https://api.openai.com/v1/chat/completions"
        else if self.m_currentProvider = "DeepSeek" then
          "https://api.deepseek.com/v1/chat/completions"
        else "https://api.groq.com/openai/v1/chat/completions"
      let request := request.setUrl endpoint
      let request := request.setRawHeader "Content-Type" "application/json"
      let request := request.setRawHeader "Authorization" ("Bearer " ++ self.m_apiKey)
      let json := json.insert "model" (QJsonValue.string actualModel)
      let json := json.insert "messages" (QJsonValue.array messagesArray)
      let json := json.insert "temperature" (QJsonValue.double (7 / 10))
      (self.postJson request json, emitted)
    else if self.m_currentProvider = "Anthropic" then
      let request := request.setUrl "https://api.anthropic.com/v1/messages"
      let request := request.setRawHeader "Content-Type" "application/json"
      let request := request.setRawHeader "x-api-key" self.m_apiKey
      let request := request.setRawHeader "anthropic-version" "2023-06-01"
      let json := json.insert "model" (QJsonValue.string actualModel)
      let json := json.insert "messages" (QJsonValue.array messagesArray)
      let json := json.insert "max_tokens" (QJsonValue.double 4096)
      (self.postJson request json, emitted)
    else if self.m_currentProvider = "Gemini" then
      let url := geminiUrl actualModel self.m_apiKey
      let request := request.setUrl url
      let request := request.setRawHeader "Content-Type" "application/json"
      let json := json.insert "contents" (QJsonValue.array (geminiContents messages))
      (self.postJson request json, emitted)
    else
      (self.postJson request json, emitted)

/-- The function `estimateCost(tokens, model)`, in exact rational arithmetic. -/
def estimateCost (tokens : Int) (model : String) : Rat :=
  if QString.contains model "gpt-4" then
    ((tokens : Rat) / 1000) * (3 / 100)
  else if QString.contains model "gpt-3.5" then
    ((tokens : Rat) / 1000) * (2 / 1000)
  else if QString.contains model "claude-3-opus" then
    ((tokens : Rat) / 1000) * (15 / 1000)
  else if QString.contains model "claude-3-sonnet" ∨ QString.contains model "claude-3-5" then
    ((tokens : Rat) / 1000) * (3 / 1000)
  else if QString.contains model "deepseek" then
    ((tokens : Rat) / 1000) * (2 / 10000)
  else if QString.contains model "llama" ∨ QString.contains model "ollama"
      ∨ QString.contains model "groq" then
    0
  else if QString.contains model "gemini" then
    0
  else
    0

/-- The parser `parseOpenAIResponse`: the signals it emits. -/
def parseOpenAIResponse (doc : QJsonDocument) : List Signal :=
  if ¬ doc.isObject then
    [Signal.errorOccurred "Invalid response format"]
  else
    let obj := doc.toObject
    if obj.contains "error" then
      let error := (obj.value "error").toObject
      [Signal.errorOccurred ("API Error: " ++ (error.value "message").toString)]
    else if obj.contains "choices" then
      let choices := (obj.value "choices").toArray
      if ¬ choices.isEmpty then
        let choice := (QJsonArray.at choices 0).toObject
        let message := (choice.value "message").toObject
        let content := (message.value "content").toString
        Signal.responseReceived content ::
          (if obj.contains "usage" then
            let usage := (obj.value "usage").toObject
            let promptTokens := (usage.value "prompt_tokens").toInt
            let completionTokens := (usage.value "completion_tokens").toInt
            [Signal.tokensUsed promptTokens completionTokens]
          else [])
      else []
    else []

/-- The parser `parseAnthropicResponse`: the signals it emits. -/
def parseAnthropicResponse (doc : QJsonDocument) : List Signal :=
  if ¬ doc.isObject then
    [Signal.errorOccurred "Invalid response format"]
  else
    let obj := doc.toObject
    if obj.contains "error" then
      let error := (obj.value "error").toObject
      [Signal.errorOccurred ("API Error: " ++ (error.value "message").toString)]
    else
      (if obj.contains "content" then
        let content := (obj.value "content").toArray
        if ¬ content.isEmpty then
          let contentObj := (QJsonArray.at content 0).toObject
          let text := (contentObj.value "text").toString
          [Signal.responseReceived text]
        else []
      else [])
      ++
      (if obj.contains "usage" then
        let usage := (obj.value "usage").toObject
        let inputTokens := (usage.value "input_tokens").toInt
        let outputTokens := (usage.value "output_tokens").toInt
        [Signal.tokensUsed inputTokens outputTokens]
      else [])

/-- The parser `parseGeminiResponse`: the signals it emits. -/
def parseGeminiResponse (doc : QJsonDocument) : List Signal :=
  if ¬ doc.isObject then
    [Signal.errorOccurred "Invalid response format"]
  else
    let obj := doc.toObject
    if obj.contains "error" then
      let error := (obj.value "error").toObject
      [Signal.errorOccurred ("API Error: " ++ (error.value "message").toString)]
    else if obj.contains "candidates" then
      let candidates := (obj.value "candidates").toArray
      if ¬ candidates.isEmpty then
        let candidate := (QJsonArray.at candidates 0).toObject
        let content := (candidate.value "content").toObject
        let parts := (content.value "parts").toArray
        if ¬ parts.isEmpty then
          let text := ((QJsonArray.at parts 0).toObject.value "text").toString
          [Signal.responseReceived text]
        else []
      else []
    else []

/-- The parser `parseOllamaResponse`: the signals it emits. -/
def parseOllamaResponse (doc : QJsonDocument) : List Signal :=
  if ¬ doc.isObject then
    [Signal.errorOccurred "Invalid response format from Ollama"]
  else
    let obj := doc.toObject
    if obj.contains "error" then
      [Signal.errorOccurred ("Ollama Error: " ++ (obj.value "error").toString)]
    else if obj.contains "message" then
      let message := (obj.value "message").toObject
      let content := (message.value "content").toString
      [Signal.responseReceived content]
    else []

/-- The slot `handleNetworkReply(reply)`, connected to the `finished` signal of the
network manager. The call `reply->deleteLater()` frees memory only and is left out. -/
def handleNetworkReply (self : AIProviderService) (reply : QNetworkReply) :
    AIProviderService × List Signal :=
  if some reply.handle ≠ self.m_currentReply then
    (self, [])
  else
    let self := { self with m_isProcessing := false }
    let emitted := [Signal.isProcessingChanged self.m_isProcessing]
    if reply.error ≠ NetworkError.NoError then
      let errorMsg := reply.errorString
      let errorMsg :=
        if self.m_currentProvider = "Ollama" ∧ reply.error = NetworkError.ConnectionRefusedError then
          "Cannot connect to Ollama. Please ensure Ollama is installed and running (https://ollama.ai)"
        else errorMsg
      (self, emitted ++ [Signal.errorOccurred ("Network error: " ++ errorMsg)])
    else
      let data := reply.document
      if self.m_currentProvider = "OpenAI" ∨ self.m_currentProvider = "DeepSeek"
          ∨ self.m_currentProvider = "GroqCloud" then
        (self, emitted ++ parseOpenAIResponse data)
      else if self.m_currentProvider = "Anthropic" then
        (self, emitted ++ parseAnthropicResponse data)
      else if self.m_currentProvider = "Gemini" then
        (self, emitted ++ parseGeminiResponse data)
      else if self.m_currentProvider = "Ollama" then
        (self, emitted ++ parseOllamaResponse data)
      else
        (self, emitted)

end AIProviderService

/-! ## Traces of gateway operations -/

/-- An operation on the gateway: a public call, or the transport finishing a reply. -/
inductive GatewayOp where
  | setCurrentProvider (provider : String)
  | setApiKey (key : String)
  | sendRequest (prompt model : String) (temperature : Rat)
  | sendChatRequest (messages : List QJsonObject) (model : String)
  | finished (reply : QNetworkReply)

/-- One operation applied to the service: the new state and the signals emitted. -/
def step (self : AIProviderService) : GatewayOp → AIProviderService × List Signal
  | GatewayOp.setCurrentProvider provider => self.setCurrentProvider provider
  | GatewayOp.setApiKey key => self.setApiKey key
  | GatewayOp.sendRequest prompt model temperature => self.sendRequest prompt model temperature
  | GatewayOp.sendChatRequest messages model => self.sendChatRequest messages model
  | GatewayOp.finished reply => self.handleNetworkReply reply

/-- A sequence of operations applied from a state: the final state and all signals, in order. -/
def run (self : AIProviderService) : List GatewayOp → AIProviderService × List Signal
  | [] => (self, [])
  | op :: ops =>
    let r := step self op
    let rest := run r.1 ops
    (rest.1, r.2 ++ rest.2)

/-- The handles of the transport completions in a trace, in order. -/
def completedHandles : List GatewayOp → List Nat
  | [] => []
  | GatewayOp.finished reply :: ops => reply.handle :: completedHandles ops
  | _ :: ops => completedHandles ops

/-- The values of `isProcessing` read at the `isProcessingChanged` emissions, in order. -/
def processingTimeline : List Signal → List Bool
  | [] => []
  | Signal.isProcessingChanged b :: sigs => b :: processingTimeline sigs
  | _ :: sigs => processingTimeline sigs

/-- The result events among the signals: `responseReceived` and `errorOccurred`. -/
def resultEvents (sigs : List Signal) : List Signal :=
  sigs.filter (fun s =>
    match s with
    | Signal.responseReceived _ => true
    | Signal.errorOccurred _ => true
    | _ => false)

/-- A list of truth values that starts with `b` and alternates. -/
def Alternates : Bool → List Bool → Prop
  | _, [] => True
  | b, x :: xs => x = b ∧ Alternates (!b) xs

/-- Two strings that differ only in letter case. -/
def sameUpToCase (a b : String) : Prop :=
  a.data.map Char.toLower = b.data.map Char.toLower

open AIProviderService

/-! ## Concrete states, summaries of calls and the pricing table of the specification -/

/-- The gateway with provider `openai` selected and no API key stored. -/
def openaiWithoutKey : AIProviderService := { init with m_currentProvider := "openai" }

/-- The gateway with the provider `Mistral`, which the service does not know, and the key `K`. -/
def mistralWithKey : AIProviderService :=
  { init with m_currentProvider := "Mistral", m_apiKey := "K" }

/-- The gateway with provider `OpenAI` and key `K`, after an accepted `sendRequest`. -/
def openaiPending : AIProviderService :=
  (({ init with m_currentProvider := "OpenAI", m_apiKey := "K" } : AIProviderService).sendRequest
    "Hi" "" (7 / 10)).1

/-- A successful transport completion of handle `1` whose body is the JSON object without members. -/
def emptyObjectReply : QNetworkReply :=
  ⟨1, NetworkError.NoError, "", QJsonDocument.object ⟨[]⟩⟩

/-- What a public call does to the single-flight fields, with the timeline it emits:
nothing, an accepted send, or a send that sets and resets `m_isProcessing`. -/
def CallShape (s r : AIProviderService) (sigs : List Signal) : Prop :=
  (r.m_isProcessing = s.m_isProcessing ∧ r.m_currentReply = s.m_currentReply
      ∧ processingTimeline sigs = [])
    ∨ (s.m_isProcessing = false ∧ r.m_isProcessing = true ∧ r.m_currentReply ≠ none
      ∧ processingTimeline sigs = [true])
    ∨ (s.m_isProcessing = false ∧ r.m_isProcessing = false
      ∧ r.m_currentReply = s.m_currentReply ∧ processingTimeline sigs = [true, false])

/-- A successful completion of handle `1` with an Ollama body whose `message.content`
is the text `Hello`. -/
def ollamaHelloReply : QNetworkReply :=
  ⟨1, NetworkError.NoError, "",
    QJsonDocument.object ⟨[("message", QJsonValue.object [("content", QJsonValue.string "Hello")])]⟩⟩

/-- A successful completion of handle `2` with an Ollama body whose `message.content`
is the text `Bye`. -/
def ollamaByeReply : QNetworkReply :=
  ⟨2, NetworkError.NoError, "",
    QJsonDocument.object ⟨[("message", QJsonValue.object [("content", QJsonValue.string "Bye")])]⟩⟩

/-- Two requests on the default gateway, each completed once. -/
def twoRoundTrips : List GatewayOp :=
  [GatewayOp.sendRequest "Hi" "" (7 / 10), GatewayOp.finished ollamaHelloReply,
    GatewayOp.sendRequest "Bye" "" (7 / 10), GatewayOp.finished ollamaByeReply]

/-- The pricing table of the specification, rows top to bottom: the substrings of a
row and its rate in USD per 1000 tokens. -/
def specCostTable : List (List String × Rat) :=
  [(["gpt-4"], 30 / 1000),
    (["gpt-3.5"], 2 / 1000),
    (["claude-3-opus"], 15 / 1000),
    (["claude-3-sonnet", "claude-3-5"], 3 / 1000),
    (["deepseek"], 2 / 10000),
    (["llama", "ollama", "groq"], 0),
    (["gemini"], 0)]

/-- The rate of the first row, top to bottom, one of whose substrings occurs in the
model; `0` when no row matches. -/
def firstMatchingRate (model : String) : List (List String × Rat) → Rat
  | [] => 0
  | row :: rows =>
    if row.1.any (fun sub => QString.contains model sub) then row.2
    else firstMatchingRate model rows

/-- The substrings of the rows of the pricing table that carry a non-zero rate. -/
def pricedSubstrings : List String :=
  ["gpt-4", "gpt-3.5", "claude-3-opus", "claude-3-sonnet", "claude-3-5", "deepseek"]

/-! ## The usage record -/

/-- The member function `UsageRecord::calculateCost(tokens, model)`, in exact rational
arithmetic. -/
def UsageRecord.calculateCost (tokens : Int) (model : String) : Rat :=
  if QString.contains model "gpt-4" then
    ((tokens : Rat) / 1000) * (3 / 100)
  else if QString.contains model "gpt-3.5" then
    ((tokens : Rat) / 1000) * (2 / 1000)
  else if QString.contains model "claude" then
    ((tokens : Rat) / 1000) * (1 / 100)
  else
    0

/-! ## Envelopes -/

/-- The call `obj.remove(key)`. -/
def QJsonObject.remove (o : QJsonObject) (key : String) : QJsonObject :=
  ⟨o.entries.filter (fun e => e.1 != key)⟩

/-- The request and the body of the latest `post` call of the service. -/
def lastPosted (s : AIProviderService) : Option (QNetworkRequest × QJsonObject) :=
  s.m_networkManager.posted.getLast?

/-- The neutral message `{role: "user", content: prompt}` as the caller of
`sendChatRequest` builds it. -/
def userMessage (prompt : String) : QJsonObject :=
  ⟨[("role", QJsonValue.string "user"), ("content", QJsonValue.string prompt)]⟩

/-- The neutral message with the given role and content. -/
def neutralMessage (role content : String) : QJsonObject :=
  ⟨[("role", QJsonValue.string role), ("content", QJsonValue.string content)]⟩

/-- The field of the single-prompt body that `sendChatRequest` does not write, per provider. -/
def omittedByChat (provider : String) : String :=
  if provider = "Anthropic" then "temperature"
  else if provider = "Gemini" then "generationConfig"
  else if provider = "Ollama" then "options"
  else "stream"

/-- The place of the temperature in a request body, per dialect: `generationConfig` for
Gemini, `options` for Ollama, top level otherwise. -/
def bodyTemperature (provider : String) (json : QJsonObject) : QJsonValue :=
  if provider = "Gemini" then (json.value "generationConfig").toObject.value "temperature"
  else if provider = "Ollama" then (json.value "options").toObject.value "temperature"
  else json.value "temperature"

/-- The call `sendRequest(prompt)` with the default arguments of the header:
`model = ""` and `temperature = 0.7`. -/
def AIProviderService.sendRequestWithDefaults (self : AIProviderService) (prompt : String) :
    AIProviderService × List Signal :=
  self.sendRequest prompt "" (7 / 10)

/-- The gateway with provider `Gemini` and the key `K`. -/
def geminiWithKey : AIProviderService :=
  { init with m_currentProvider := "Gemini", m_apiKey := "K" }

/-- The gateway with provider `Anthropic` and the key `K`. -/
def anthropicWithKey : AIProviderService :=
  { init with m_currentProvider := "Anthropic", m_apiKey := "K" }

/-- A conversation that opens with a system message. -/
def systemThenUser : List QJsonObject :=
  [neutralMessage "system" "Be kind", neutralMessage "user" "Hi"]

/-- A conversation with the three neutral roles. -/
def threeRoles : List QJsonObject :=
  [neutralMessage "system" "Be kind", neutralMessage "user" "Hi",
    neutralMessage "assistant" "Hello"]

/-- The URL and headers that section 4.3 of the specification gives for a known provider. -/
def specRequest (provider apiKey model : String) : QNetworkRequest :=
  if provider = "OpenAI" then
    ⟨"https://api.openai.com/v1/chat/completions",
      [("Content-Type", "application/json"), ("Authorization", "Bearer " ++ apiKey)]⟩
  else if provider = "DeepSeek" then
    ⟨"https://api.deepseek.com/v1/chat/completions",
      [("Content-Type", "application/json"), ("Authorization", "Bearer " ++ apiKey)]⟩
  else if provider = "GroqCloud" then
    ⟨"https://api.groq.com/openai/v1/chat/completions",
      [("Content-Type", "application/json"), ("Authorization", "Bearer " ++ apiKey)]⟩
  else if provider = "Anthropic" then
    ⟨"https://api.anthropic.com/v1/messages",
      [("Content-Type", "application/json"), ("x-api-key", apiKey),
        ("anthropic-version", "2023-06-01")]⟩
  else if provider = "Gemini" then
    ⟨"https://generativelanguage.googleapis.com/v1beta/models/" ++ model
        ++ ":generateContent?key=" ++ apiKey,
      [("Content-Type", "application/json")]⟩
  else
    ⟨"http://localhost:11434/api/chat", [("Content-Type", "application/json")]⟩

/-- The default model that section 4.2 of the specification gives for a known provider. -/
def specDefaultModel (provider : String) : String :=
  if provider = "Ollama" then "llama3.2"
  else if provider = "GroqCloud" then "llama-3.3-70b-versatile"
  else if provider = "Gemini" then "gemini-1.5-flash"
  else if provider = "DeepSeek" then "deepseek-chat"
  else if provider = "OpenAI" then "gpt-4o"
  else "claude-3-5-sonnet-20241022"

/-- An OpenAI-style body with a top-level error object next to reply text and usage. -/
def errorObjectWithReply : QJsonObject :=
  ⟨[("error", QJsonValue.object [("message", QJsonValue.string "Rate limit reached")]),
    ("choices", QJsonValue.array [QJsonValue.object
      [("message", QJsonValue.object [("content", QJsonValue.string "ok")])]]),
    ("content", QJsonValue.array [QJsonValue.object [("text", QJsonValue.string "ok")]]),
    ("usage", QJsonValue.object
      [("prompt_tokens", QJsonValue.double 12), ("completion_tokens", QJsonValue.double 7)])]⟩

/-- An Ollama-style body whose top-level error is a string, next to a reply message. -/
def errorStringWithReply : QJsonObject :=
  ⟨[("error", QJsonValue.string "model not found"),
    ("message", QJsonValue.object [("content", QJsonValue.string "ok")])]⟩

/-! ## Reply paths and parser dispatch -/

/-- The reply-text path of the OpenAI dialect: `choices[0].message.content`. -/
def openAIReplyPath (obj : QJsonObject) : QJsonValue :=
  (((QJsonArray.at (obj.value "choices").toArray 0).toObject.value "message").toObject).value
    "content"

/-- The reply-text path of the Anthropic dialect: `content[0].text`. -/
def anthropicReplyPath (obj : QJsonObject) : QJsonValue :=
  (QJsonArray.at (obj.value "content").toArray 0).toObject.value "text"

/-- The reply-text path of the Gemini dialect: `candidates[0].content.parts[0].text`. -/
def geminiReplyPath (obj : QJsonObject) : QJsonValue :=
  (QJsonArray.at
    ((((QJsonArray.at (obj.value "candidates").toArray 0).toObject.value "content").toObject).value
      "parts").toArray 0).toObject.value "text"

/-- The reply-text path of the Ollama dialect: `message.content`. -/
def ollamaReplyPath (obj : QJsonObject) : QJsonValue :=
  (obj.value "message").toObject.value "content"

/-- The parser that `handleNetworkReply` runs for a provider name; none for an unknown name. -/
def parseResponseFor (provider : String) (doc : QJsonDocument) : List Signal :=
  if provider = "OpenAI" ∨ provider = "DeepSeek" ∨ provider = "GroqCloud" then
    parseOpenAIResponse doc
  else if provider = "Anthropic" then parseAnthropicResponse doc
  else if provider = "Gemini" then parseGeminiResponse doc
  else if provider = "Ollama" then parseOllamaResponse doc
  else []

/-- The text that `handleNetworkReply` puts in place of the error string when Ollama
refuses the connection. -/
def ollamaOfflineMessage : String :=
  "Cannot connect to Ollama. Please ensure Ollama is installed and running (https://ollama.ai)"

/-! ## The chat view model -/

/-- Modelled from the spec: the declaration of `ConversationRole` is not among the sources;
the roles are those of a neutral message (section 3). -/
inductive ConversationRole where
  | User
  | Assistant
  | System
  deriving DecidableEq

/-- Modelled from the spec: the declaration of `Message` is not among the sources; a
message carries a role and a content (section 3). The timestamp that the view model
passes as third member is the wall clock and is left out. -/
structure Message where
  role : ConversationRole
  content : String
  deriving DecidableEq

/-- The members of `Conversation` that the chat view model touches. -/
structure Conversation where
  messages : List Message
  messageCount : Int
  deriving DecidableEq

/-- The member function `Conversation::addMessage`. -/
def Conversation.addMessage (c : Conversation) (msg : Message) : Conversation :=
  let messages := c.messages ++ [msg]
  { messages := messages, messageCount := messages.length }

/-- The signals of `ChatViewModel`; `isProcessingChanged` carries the value a listener reads. -/
inductive ChatSignal where
  | currentMessageChanged
  | isProcessingChanged (isProcessing : Bool)
  | selectedModelChanged
  | temperatureChanged
  | errorOccurred (error : String)
  deriving DecidableEq

/-- The member variables of `ChatViewModel`. -/
structure ChatViewModel where
  m_conversation : Conversation
  m_currentMessage : String
  m_isProcessing : Bool
  m_selectedModel : String
  m_temperature : Rat
  m_aiService : AIProviderService

namespace ChatViewModel

/-- The constructor, with the member initialisers of the header. -/
def init : ChatViewModel :=
  { m_conversation := ⟨[], 0⟩
    m_currentMessage := ""
    m_isProcessing := false
    m_selectedModel := "gpt-3.5-turbo"
    m_temperature := 7 / 10
    m_aiService := AIProviderService.init }

/-- The setter `setCurrentMessage`. -/
def setCurrentMessage (vm : ChatViewModel) (msg : String) : ChatViewModel × List ChatSignal :=
  if vm.m_currentMessage ≠ msg then
    ({ vm with m_currentMessage := msg }, [ChatSignal.currentMessageChanged])
  else (vm, [])

/-- The setter `setSelectedModel`. -/
def setSelectedModel (vm : ChatViewModel) (model : String) : ChatViewModel × List ChatSignal :=
  if vm.m_selectedModel ≠ model then
    ({ vm with m_selectedModel := model }, [ChatSignal.selectedModelChanged])
  else (vm, [])

/-- The setter `setTemperature`. -/
def setTemperature (vm : ChatViewModel) (temp : Rat) : ChatViewModel × List ChatSignal :=
  if vm.m_temperature ≠ temp then
    ({ vm with m_temperature := temp }, [ChatSignal.temperatureChanged])
  else (vm, [])

/-- The private slot `processAIResponse`, connected to `responseReceived` of the service. -/
def processAIResponse (vm : ChatViewModel) (response : String) :
    ChatViewModel × List ChatSignal :=
  let aiMsg : Message := ⟨ConversationRole.Assistant, response⟩
  let vm := { vm with m_conversation := vm.m_conversation.addMessage aiMsg }
  let vm := { vm with m_isProcessing := false }
  (vm, [ChatSignal.isProcessingChanged vm.m_isProcessing])

/-- The two connections made in the constructor: `responseReceived` runs
`processAIResponse`, `errorOccurred` is forwarded as the signal `errorOccurred` of the
view model; the other signals of the service are not connected. -/
def onServiceSignal (vm : ChatViewModel) : Signal → ChatViewModel × List ChatSignal
  | Signal.responseReceived response => vm.processAIResponse response
  | Signal.errorOccurred error => (vm, [ChatSignal.errorOccurred error])
  | _ => (vm, [])

/-- The signals of the service delivered to the view model, in emission order. -/
def deliver (vm : ChatViewModel) : List Signal → ChatViewModel × List ChatSignal
  | [] => (vm, [])
  | sig :: sigs =>
    let r := vm.onServiceSignal sig
    let rest := deliver r.1 sigs
    (rest.1, r.2 ++ rest.2)

/-- The call `m_aiService->sendRequest(prompt, m_selectedModel, m_temperature)` with the
signals it emits delivered to the view model. -/
def callService (vm : ChatViewModel) (prompt : String) : ChatViewModel × List ChatSignal :=
  let r := vm.m_aiService.sendRequest prompt vm.m_selectedModel vm.m_temperature
  deliver { vm with m_aiService := r.1 } r.2

/-- The slot `sendMessage`. -/
def sendMessage (vm : ChatViewModel) : ChatViewModel × List ChatSignal :=
  if vm.m_currentMessage = "" ∨ vm.m_isProcessing then
    (vm, [])
  else
    let userMsg : Message := ⟨ConversationRole.User, vm.m_currentMessage⟩
    let vm := { vm with m_conversation := vm.m_conversation.addMessage userMsg }
    let vm := { vm with m_isProcessing := true }
    let emitted := [ChatSignal.isProcessingChanged vm.m_isProcessing]
    let temp := vm.m_currentMessage
    let r1 := vm.setCurrentMessage ""
    let r2 := r1.1.callService temp
    (r2.1, emitted ++ r1.2 ++ r2.2)

/-- The slot `clearConversation`; `messageCount` is not touched by it. -/
def clearConversation (vm : ChatViewModel) : ChatViewModel :=
  { vm with m_conversation := { vm.m_conversation with messages := [] } }

/-- The index of the last message of role `User`, as the backward loop of
`regenerateLastResponse` finds it. -/
def lastUserIndex : List Message → Option Nat
  | [] => none
  | msg :: rest =>
    match lastUserIndex rest with
    | some i => some (i + 1)
    | none => if msg.role = ConversationRole.User then some 0 else none

/-- The slot `regenerateLastResponse`. -/
def regenerateLastResponse (vm : ChatViewModel) : ChatViewModel × List ChatSignal :=
  if vm.m_conversation.messages = [] then
    (vm, [])
  else
    match lastUserIndex vm.m_conversation.messages with
    | none => (vm, [])
    | some i =>
      let vm := { vm with
        m_conversation := { vm.m_conversation with
          messages := vm.m_conversation.messages.take (i + 1) } }
      let vm := { vm with m_isProcessing := true }
      let emitted := [ChatSignal.isProcessingChanged vm.m_isProcessing]
      let r := vm.callService ((vm.m_conversation.messages.getD i ⟨ConversationRole.User, ""⟩).content)
      (r.1, emitted ++ r.2)

/-- The transport finishing a reply of the service owned by the view model. -/
def finished (vm : ChatViewModel) (reply : QNetworkReply) : ChatViewModel × List ChatSignal :=
  let r := vm.m_aiService.handleNetworkReply reply
  deliver { vm with m_aiService := r.1 } r.2

end ChatViewModel

/-! ## The usage view model -/

/-- The members of `UsageRecord`; the timestamp is a count of milliseconds. -/
structure UsageRecord where
  id : String
  childProfileId : String
  feature : String
  aiModel : String
  tokensUsed : Int
  estimatedCost : Rat
  timestamp : Int
  durationSeconds : Int
  sessionId : String
  wasSuccessful : Bool
  errorMessage : String
  deriving DecidableEq

/-- The member variables of `UsageViewModel`. -/
structure UsageViewModel where
  m_records : List UsageRecord
  m_filteredRecords : List UsageRecord
  deriving DecidableEq

namespace UsageViewModel

/-- The slot `recordUsage`: the record is appended to both lists. -/
def recordUsage (vm : UsageViewModel) (record : UsageRecord) : UsageViewModel :=
  let vm := { vm with m_records := vm.m_records ++ [record] }
  let vm := { vm with m_filteredRecords := vm.m_filteredRecords ++ [record] }
  vm

/-- The loop of `filterByChild` over the records, appending the matching ones. -/
def appendMatching (childId : String) : List UsageRecord → List UsageRecord → List UsageRecord
  | filtered, [] => filtered
  | filtered, record :: records =>
    if record.childProfileId = childId then appendMatching childId (filtered ++ [record]) records
    else appendMatching childId filtered records

/-- The slot `filterByChild`. -/
def filterByChild (vm : UsageViewModel) (childId : String) : UsageViewModel :=
  if childId = "" then
    { vm with m_filteredRecords := vm.m_records }
  else
    { vm with m_filteredRecords := appendMatching childId [] vm.m_records }

/-- The private `applyFilters`. -/
def applyFilters (vm : UsageViewModel) : UsageViewModel :=
  { vm with m_filteredRecords := vm.m_records }

end UsageViewModel

/-- A sequence of `recordUsage` calls. -/
def recordAll (vm : UsageViewModel) : List UsageRecord → UsageViewModel
  | [] => vm
  | record :: records => recordAll (vm.recordUsage record) records

/-! ## Concrete inputs for completions and view models -/

/-- A completion of handle `1` that Ollama refused, with the error string of the transport. -/
def connectionRefusedReply : QNetworkReply :=
  ⟨1, NetworkError.ConnectionRefusedError, "Connection refused", QJsonDocument.null⟩

/-- A completion of handle `1` that timed out (error code 4). -/
def timeoutReply : QNetworkReply :=
  ⟨1, NetworkError.Other 4, "Socket operation timed out", QJsonDocument.null⟩

/-- The default gateway after an accepted `sendRequest`. -/
def ollamaPending : AIProviderService :=
  (init.sendRequest "Hi" "" (7 / 10)).1

/-- The OpenAI body of the token-accounting scenario: reply `ok`, 12 prompt tokens and
7 completion tokens. -/
def openAIOkBody : QJsonObject :=
  ⟨[("choices", QJsonValue.array [QJsonValue.object
      [("message", QJsonValue.object [("content", QJsonValue.string "ok")])]]),
    ("usage", QJsonValue.object
      [("prompt_tokens", QJsonValue.double 12), ("completion_tokens", QJsonValue.double 7)])]⟩

/-- A successful completion of handle `1` with the body `openAIOkBody`. -/
def openAIOkReply : QNetworkReply :=
  ⟨1, NetworkError.NoError, "", QJsonDocument.object openAIOkBody⟩

/-- An Anthropic body with reply `ok`, 12 input tokens and 7 output tokens. -/
def anthropicOkBody : QJsonObject :=
  ⟨[("content", QJsonValue.array [QJsonValue.object [("text", QJsonValue.string "ok")]]),
    ("usage", QJsonValue.object
      [("input_tokens", QJsonValue.double 12), ("output_tokens", QJsonValue.double 7)])]⟩

/-- An Anthropic body with an empty `content` array and a usage object. -/
def anthropicEmptyContentBody : QJsonObject :=
  ⟨[("content", QJsonValue.array []),
    ("usage", QJsonValue.object
      [("input_tokens", QJsonValue.double 10), ("output_tokens", QJsonValue.double 0)])]⟩

/-- The gateway with provider `Anthropic` and key `K`, after an accepted `sendRequest`. -/
def anthropicPending : AIProviderService :=
  (anthropicWithKey.sendRequest "Hi" "" (7 / 10)).1

/-- A Gemini body with reply `ok`. -/
def geminiOkBody : QJsonObject :=
  ⟨[("candidates", QJsonValue.array [QJsonValue.object
      [("content", QJsonValue.object
        [("parts", QJsonValue.array [QJsonValue.object [("text", QJsonValue.string "ok")]])])]])]⟩

/-- An Ollama body with reply `ok`. -/
def ollamaOkBody : QJsonObject :=
  ⟨[("message", QJsonValue.object [("content", QJsonValue.string "ok")])]⟩

/-- The range of the C++ type `int`. -/
def inIntRange (i : Int) : Prop := -2147483648 ≤ i ∧ i ≤ 2147483647

/-- A successful completion of handle `1` with the body `anthropicOkBody`. -/
def anthropicOkReply : QNetworkReply :=
  ⟨1, NetworkError.NoError, "", QJsonDocument.object anthropicOkBody⟩

/-- A successful completion of handle `1` with the body `anthropicEmptyContentBody`. -/
def anthropicEmptyContentReply : QNetworkReply :=
  ⟨1, NetworkError.NoError, "", QJsonDocument.object anthropicEmptyContentBody⟩

/-- An OpenAI-style body whose first choice has no `message` member. -/
def choiceWithoutMessageBody : QJsonObject :=
  ⟨[("choices", QJsonValue.array [QJsonValue.object
      [("finish_reason", QJsonValue.string "length")]])]⟩

/-- The chat view model after the user typed `Hi` and called `sendMessage`. -/
def chatAfterSend : ChatViewModel :=
  ((ChatViewModel.init.setCurrentMessage "Hi").1.sendMessage).1

/-- A usage record of the given child: 100 tokens of `gpt-4` in a chat. -/
def sampleRecord (childId : String) : UsageRecord :=
  { id := ""
    childProfileId := childId
    feature := "chat"
    aiModel := "gpt-4"
    tokensUsed := 100
    estimatedCost := 3 / 1000
    timestamp := 0
    durationSeconds := 30
    sessionId := "session_0"
    wasSuccessful := true
    errorMessage := "" }

/-- A usage view model that holds one record of `child_0`, unfiltered. -/
def oneRecordView : UsageViewModel :=
  ⟨[sampleRecord "child_0"], [sampleRecord "child_0"]⟩

/-! ## Usage objects with unusual token counts -/

/-- The number `12.5` as a reduced fraction. -/
def twelveAndAHalf : Rat := ⟨25, 2, by decide, by decide⟩

/-- An OpenAI body with reply `ok` whose usage object has the prompt count `12.5` and the
completion count `7`. -/
def fractionalUsageBody : QJsonObject :=
  ⟨[("choices", QJsonValue.array [QJsonValue.object
      [("message", QJsonValue.object [("content", QJsonValue.string "ok")])]]),
    ("usage", QJsonValue.object
      [("prompt_tokens", QJsonValue.double twelveAndAHalf),
        ("completion_tokens", QJsonValue.double 7)])]⟩

/-- An OpenAI body with reply `ok` whose usage object has no members. -/
def emptyUsageBody : QJsonObject :=
  ⟨[("choices", QJsonValue.array [QJsonValue.object
      [("message", QJsonValue.object [("content", QJsonValue.string "ok")])]]),
    ("usage", QJsonValue.object [])]⟩

/-- A successful completion of handle `1` with the given object as body. -/
def okReplyWith (body : QJsonObject) : QNetworkReply :=
  ⟨1, NetworkError.NoError, "", QJsonDocument.object body⟩

/-! ## Lemmas on the single operations -/

theorem processingTimeline_append (a b : List Signal) :
    processingTimeline (a ++ b) = processingTimeline a ++ processingTimeline b := by
  induction a with
  | nil => rfl
  | cons x xs ih => cases x <;> simp [processingTimeline, ih]

theorem setCurrentProvider_shape (s : AIProviderService) (provider : String) :
    CallShape s (s.setCurrentProvider provider).1 (s.setCurrentProvider provider).2 := by
  unfold setCurrentProvider
  split_ifs <;> simp [CallShape, processingTimeline]

theorem setApiKey_shape (s : AIProviderService) (key : String) :
    CallShape s (s.setApiKey key).1 (s.setApiKey key).2 := by
  simp [setApiKey, CallShape, processingTimeline]

/-- The three outcomes of `sendRequest`: rejected with one error, accepted and posted, or
the unsupported-provider path. -/
theorem sendRequest_cases (s : AIProviderService) (prompt model : String) (temperature : Rat) :
    (∃ msg, s.sendRequest prompt model temperature = (s, [Signal.errorOccurred msg]))
      ∨ (s.m_isProcessing = false ∧ ∃ request json,
          s.sendRequest prompt model temperature
            = (({ s with m_isProcessing := true } : AIProviderService).postJson request json,
                [Signal.isProcessingChanged true]))
      ∨ (s.m_isProcessing = false ∧
          s.sendRequest prompt model temperature
            = ({ s with m_isProcessing := false },
                [Signal.isProcessingChanged true, Signal.isProcessingChanged false,
                  Signal.errorOccurred ("Unsupported provider: " ++ s.m_currentProvider)])) := by
  unfold sendRequest
  by_cases hb : s.m_isProcessing = true
  · rw [if_pos hb]; exact Or.inl ⟨_, rfl⟩
  · rw [if_neg hb]
    have hb2 : s.m_isProcessing = false := by simpa using hb
    dsimp only
    split_ifs
    all_goals first
      | exact Or.inl ⟨_, rfl⟩
      | exact Or.inr (Or.inl ⟨hb2, _, _, rfl⟩)
      | exact Or.inr (Or.inr ⟨hb2, rfl⟩)

/-- The two outcomes of `sendChatRequest`: rejected with one error, or posted. -/
theorem sendChatRequest_cases (s : AIProviderService) (messages : List QJsonObject)
    (model : String) :
    (∃ msg, s.sendChatRequest messages model = (s, [Signal.errorOccurred msg]))
      ∨ (s.m_isProcessing = false ∧ ∃ request json,
          s.sendChatRequest messages model
            = (({ s with m_isProcessing := true } : AIProviderService).postJson request json,
                [Signal.isProcessingChanged true])) := by
  unfold sendChatRequest
  by_cases hb : s.m_isProcessing = true
  · rw [if_pos hb]; exact Or.inl ⟨_, rfl⟩
  · rw [if_neg hb]
    have hb2 : s.m_isProcessing = false := by simpa using hb
    dsimp only
    split_ifs
    all_goals first
      | exact Or.inl ⟨_, rfl⟩
      | exact Or.inr ⟨hb2, _, _, rfl⟩

theorem sendRequest_shape (s : AIProviderService) (prompt model : String) (temperature : Rat) :
    CallShape s (s.sendRequest prompt model temperature).1
      (s.sendRequest prompt model temperature).2 := by
  rcases sendRequest_cases s prompt model temperature with ⟨msg, h⟩ | ⟨hb, request, json, h⟩ | ⟨hb, h⟩
  · rw [h]; exact Or.inl ⟨rfl, rfl, rfl⟩
  · rw [h]; exact Or.inr (Or.inl ⟨hb, rfl, by simp [postJson], rfl⟩)
  · rw [h]; exact Or.inr (Or.inr ⟨hb, rfl, rfl, rfl⟩)

theorem sendChatRequest_shape (s : AIProviderService) (messages : List QJsonObject)
    (model : String) :
    CallShape s (s.sendChatRequest messages model).1 (s.sendChatRequest messages model).2 := by
  rcases sendChatRequest_cases s messages model with ⟨msg, h⟩ | ⟨hb, request, json, h⟩
  · rw [h]; exact Or.inl ⟨rfl, rfl, rfl⟩
  · rw [h]; exact Or.inr (Or.inl ⟨hb, rfl, by simp [postJson], rfl⟩)

theorem parseOpenAIResponse_timeline (doc : QJsonDocument) :
    processingTimeline (parseOpenAIResponse doc) = [] := by
  unfold parseOpenAIResponse
  dsimp only
  split_ifs <;> simp [processingTimeline]

theorem parseAnthropicResponse_timeline (doc : QJsonDocument) :
    processingTimeline (parseAnthropicResponse doc) = [] := by
  unfold parseAnthropicResponse
  dsimp only
  split_ifs <;> simp [processingTimeline]

theorem parseGeminiResponse_timeline (doc : QJsonDocument) :
    processingTimeline (parseGeminiResponse doc) = [] := by
  unfold parseGeminiResponse
  dsimp only
  split_ifs <;> simp [processingTimeline]

theorem parseOllamaResponse_timeline (doc : QJsonDocument) :
    processingTimeline (parseOllamaResponse doc) = [] := by
  unfold parseOllamaResponse
  dsimp only
  split_ifs <;> simp [processingTimeline]

/-- A completion is either stale and does nothing, or it resets `m_isProcessing`, keeps the
reply handle and emits `isProcessingChanged` once, reading false. -/
theorem handleNetworkReply_shape (s : AIProviderService) (reply : QNetworkReply) :
    (s.m_currentReply ≠ some reply.handle ∧ s.handleNetworkReply reply = (s, []))
      ∨ (s.m_currentReply = some reply.handle
        ∧ (s.handleNetworkReply reply).1.m_isProcessing = false
        ∧ (s.handleNetworkReply reply).1.m_currentReply = s.m_currentReply
        ∧ processingTimeline (s.handleNetworkReply reply).2 = [false]) := by
  by_cases h : s.m_currentReply = some reply.handle
  · right
    have h2 : some reply.handle = s.m_currentReply := h.symm
    refine ⟨h, ?_⟩
    unfold handleNetworkReply
    simp only [h2, ne_eq, not_true_eq_false, if_false]
    split_ifs <;>
      simp [processingTimeline, processingTimeline_append, parseOpenAIResponse_timeline,
        parseAnthropicResponse_timeline, parseGeminiResponse_timeline,
        parseOllamaResponse_timeline]
  · left
    have h2 : some reply.handle ≠ s.m_currentReply := fun e => h e.symm
    exact ⟨h, by simp [handleNetworkReply, h2]⟩

theorem step_shape (s : AIProviderService) (op : GatewayOp)
    (hop : ∀ reply, op ≠ GatewayOp.finished reply) :
    CallShape s (step s op).1 (step s op).2 := by
  cases op with
  | setCurrentProvider provider => exact setCurrentProvider_shape s provider
  | setApiKey key => exact setApiKey_shape s key
  | sendRequest prompt model temperature => exact sendRequest_shape s prompt model temperature
  | sendChatRequest messages model => exact sendChatRequest_shape s messages model
  | finished reply => exact absurd rfl (hop reply)

theorem busy_has_handle_step (s : AIProviderService) (op : GatewayOp)
    (h : s.m_isProcessing = true → s.m_currentReply ≠ none) :
    (step s op).1.m_isProcessing = true → (step s op).1.m_currentReply ≠ none := by
  by_cases hop : ∃ reply, op = GatewayOp.finished reply
  · obtain ⟨reply, rfl⟩ := hop
    rcases handleNetworkReply_shape s reply with ⟨_, he⟩ | ⟨_, hb, _, _⟩
    · simp only [step, he]; exact h
    · intro hb2
      simp only [step] at hb2
      rw [hb] at hb2
      exact absurd hb2 (by decide)
  · have hop2 : ∀ reply, op ≠ GatewayOp.finished reply := fun reply e => hop ⟨reply, e⟩
    rcases step_shape s op hop2 with ⟨hb, hr, _⟩ | ⟨_, _, hr, _⟩ | ⟨_, hb, _, _⟩
    · rw [hb, hr]; exact h
    · exact fun _ => hr
    · intro hb2; rw [hb] at hb2; exact absurd hb2 (by decide)

theorem busy_has_handle_run (ops : List GatewayOp) :
    ∀ s : AIProviderService, (s.m_isProcessing = true → s.m_currentReply ≠ none) →
      (run s ops).1.m_isProcessing = true → (run s ops).1.m_currentReply ≠ none := by
  induction ops with
  | nil => intro s h; exact h
  | cons op ops ih =>
    intro s h
    exact ih (step s op).1 (busy_has_handle_step s op h)

theorem completedHandles_of_call (op : GatewayOp) (ops : List GatewayOp)
    (hop : ∀ reply, op ≠ GatewayOp.finished reply) :
    completedHandles (op :: ops) = completedHandles ops := by
  cases op with
  | finished reply => exact absurd rfl (hop reply)
  | _ => rfl

/-- From any state whose reply handle, when idle, does not complete again, the timeline
of a trace alternates, starting with the negation of the current busy flag. -/
theorem timeline_alternates_from (ops : List GatewayOp) :
    ∀ s : AIProviderService, (completedHandles ops).Nodup →
      (s.m_isProcessing = false → ∀ h, s.m_currentReply = some h → h ∉ completedHandles ops) →
      Alternates (!s.m_isProcessing) (processingTimeline (run s ops).2) := by
  induction ops with
  | nil => intro s _ _; trivial
  | cons op ops ih =>
    intro s hnd hinv
    show Alternates (!s.m_isProcessing)
      (processingTimeline ((step s op).2 ++ (run (step s op).1 ops).2))
    rw [processingTimeline_append]
    by_cases hop : ∃ reply, op = GatewayOp.finished reply
    · obtain ⟨reply, rfl⟩ := hop
      have hnd2 : reply.handle ∉ completedHandles ops ∧ (completedHandles ops).Nodup :=
        List.nodup_cons.mp hnd
      rcases handleNetworkReply_shape s reply with ⟨hstale, he⟩ | ⟨hcur, hb, hr, ht⟩
      · simp only [step, he, processingTimeline, List.nil_append]
        exact ih s hnd2.2 (fun hb h hh => fun hmem =>
          hinv hb h hh (List.mem_cons_of_mem _ hmem))
      · have hbusy : s.m_isProcessing = true := by
          cases hs : s.m_isProcessing with
          | true => rfl
          | false => exact absurd (List.mem_cons_self _ _) (hinv hs reply.handle hcur)
        simp only [step] at *
        rw [ht, hbusy]
        refine ⟨rfl, ?_⟩
        have := ih (s.handleNetworkReply reply).1 hnd2.2 (by
          intro _ h hh
          rw [hr, hcur] at hh
          cases hh
          exact hnd2.1)
        rw [hb] at this
        exact this
    · have hop2 : ∀ reply, op ≠ GatewayOp.finished reply := fun reply e => hop ⟨reply, e⟩
      rw [completedHandles_of_call op ops hop2] at hnd hinv
      rcases step_shape s op hop2 with ⟨hb, hr, ht⟩ | ⟨hb, hb2, hr, ht⟩ | ⟨hb, hb2, hr, ht⟩
      · rw [ht, List.nil_append, ← hb]
        exact ih _ hnd (by rw [hb, hr]; exact hinv)
      · rw [ht, hb]
        refine ⟨rfl, ?_⟩
        have := ih (step s op).1 hnd (by
          intro hf; rw [hb2] at hf; exact absurd hf (by decide))
        rw [hb2] at this
        exact this
      · rw [ht, hb]
        refine ⟨rfl, rfl, ?_⟩
        have := ih (step s op).1 hnd (by rw [hr]; exact fun _ => hinv hb)
        rw [hb2] at this
        exact this

theorem parseOpenAIResponse_results (doc : QJsonDocument) :
    (resultEvents (parseOpenAIResponse doc)).length ≤ 1 := by
  unfold parseOpenAIResponse
  dsimp only
  split_ifs <;> simp [resultEvents]

theorem parseAnthropicResponse_results (doc : QJsonDocument) :
    (resultEvents (parseAnthropicResponse doc)).length ≤ 1 := by
  unfold parseAnthropicResponse
  dsimp only
  split_ifs <;> simp [resultEvents]

theorem parseGeminiResponse_results (doc : QJsonDocument) :
    (resultEvents (parseGeminiResponse doc)).length ≤ 1 := by
  unfold parseGeminiResponse
  dsimp only
  split_ifs <;> simp [resultEvents]

theorem parseOllamaResponse_results (doc : QJsonDocument) :
    (resultEvents (parseOllamaResponse doc)).length ≤ 1 := by
  unfold parseOllamaResponse
  dsimp only
  split_ifs <;> simp [resultEvents]

/-- A completion emits at most one result event (`responseReceived` or `errorOccurred`). -/
theorem handleNetworkReply_at_most_one_result (self : AIProviderService) (reply : QNetworkReply) :
    (resultEvents (self.handleNetworkReply reply).2).length ≤ 1 := by
  have ho := parseOpenAIResponse_results reply.document
  have ha := parseAnthropicResponse_results reply.document
  have hg := parseGeminiResponse_results reply.document
  have hl := parseOllamaResponse_results reply.document
  unfold handleNetworkReply
  dsimp only
  unfold resultEvents at *
  split_ifs <;> simp [List.filter_cons] <;> assumption

/-! ## The claims -/

/-- Claim C1, evaluated on the code. With provider `OpenAI` and a request in flight, the
successful completion of the current handle whose body is the empty JSON object emits
`isProcessingChanged` only: no `responseReceived` and no `errorOccurred`. -/
theorem completion_without_result_event :
    openaiPending.m_isProcessing = true
      ∧ openaiPending.m_currentReply = some emptyObjectReply.handle
      ∧ (openaiPending.handleNetworkReply emptyObjectReply).2 = [Signal.isProcessingChanged false]
      ∧ resultEvents (openaiPending.handleNetworkReply emptyObjectReply).2 = [] := by
  decide

/-- Counterexample to claim C2. After an accepted `sendRequest` and the completion of its
handle, `m_isProcessing` is false while `m_currentReply` still holds the handle. -/
theorem busy_iff_handle_counterexample :
    (run init [GatewayOp.sendRequest "Hi" "" (7 / 10), GatewayOp.finished ollamaHelloReply]).1.m_isProcessing
        = false
      ∧ (run init [GatewayOp.sendRequest "Hi" "" (7 / 10),
          GatewayOp.finished ollamaHelloReply]).1.m_currentReply = some 1 := by
  decide

/-- Claim C2, amended. In every state reachable from the initial state by any sequence of
`setCurrentProvider`, `setApiKey`, `sendRequest`, `sendChatRequest` and transport
completions, if `m_isProcessing` is true then `m_currentReply` is not null. -/
theorem busy_implies_handle_present (ops : List GatewayOp) :
    (run init ops).1.m_isProcessing = true → (run init ops).1.m_currentReply ≠ none :=
  busy_has_handle_run ops init (fun h => absurd h (by decide))

/-- Witness for C2 (amended): after one accepted `sendRequest` the gateway is busy and holds a handle. -/
theorem busy_implies_handle_present_witness :
    (run init [GatewayOp.sendRequest "Hi" "" (7 / 10)]).1.m_isProcessing = true
      ∧ (run init [GatewayOp.sendRequest "Hi" "" (7 / 10)]).1.m_currentReply ≠ none :=
  ⟨by decide, busy_implies_handle_present [GatewayOp.sendRequest "Hi" "" (7 / 10)] (by decide)⟩

/-- Claim C3. A send in either form, issued while idle with a provider that requires an
API key and an empty stored key, emits only `errorOccurred("API key not configured for
<provider>")` and returns the service unchanged: nothing is posted, `m_isProcessing`
stays false and no `isProcessingChanged` is emitted. -/
theorem send_without_api_key_rejected (self : AIProviderService) (prompt model : String)
    (temperature : Rat) (messages : List QJsonObject)
    (hIdle : self.m_isProcessing = false)
    (hRequires : providerRequiresApiKey self.m_currentProvider = true)
    (hKey : self.m_apiKey = "") :
    self.sendRequest prompt model temperature
        = (self, [Signal.errorOccurred ("API key not configured for " ++ self.m_currentProvider)])
      ∧ self.sendChatRequest messages model
        = (self, [Signal.errorOccurred ("API key not configured for " ++ self.m_currentProvider)]) := by
  constructor
  · simp [sendRequest, hIdle, hRequires, hKey]
  · simp [sendChatRequest, hIdle, hRequires, hKey]

/-- Witness for C3: provider `openai`, empty key, prompt `X`. -/
theorem send_without_api_key_rejected_witness :
    openaiWithoutKey.sendRequest "X" "" (7 / 10)
        = (openaiWithoutKey, [Signal.errorOccurred "API key not configured for openai"])
      ∧ openaiWithoutKey.sendChatRequest [] ""
        = (openaiWithoutKey, [Signal.errorOccurred "API key not configured for openai"]) :=
  send_without_api_key_rejected openaiWithoutKey "X" "" (7 / 10) [] rfl (by decide) rfl

/-- Claim C4. A send in either form, issued while `m_isProcessing` is true, emits only
`errorOccurred("Already processing a request")` and returns the service unchanged
(busy flag, reply handle, provider, API key, posted requests), whatever the provider
and the API key are. -/
theorem send_while_pending_rejected (self : AIProviderService) (prompt model : String)
    (temperature : Rat) (messages : List QJsonObject)
    (hBusy : self.m_isProcessing = true) :
    self.sendRequest prompt model temperature
        = (self, [Signal.errorOccurred "Already processing a request"])
      ∧ self.sendChatRequest messages model
        = (self, [Signal.errorOccurred "Already processing a request"]) := by
  constructor
  · simp [sendRequest, hBusy]
  · simp [sendChatRequest, hBusy]

/-- Witness for C4: a second send while the first `OpenAI` request is in flight. -/
theorem send_while_pending_rejected_witness :
    openaiPending.sendRequest "again" "" (7 / 10)
        = (openaiPending, [Signal.errorOccurred "Already processing a request"])
      ∧ openaiPending.sendChatRequest [] ""
        = (openaiPending, [Signal.errorOccurred "Already processing a request"]) :=
  send_while_pending_rejected openaiPending "again" "" (7 / 10) [] (by decide)

/-- Counterexample to claim C5. With the unknown provider `Mistral` and key `K`, idle:
`sendRequest` emits `isProcessingChanged` twice before the error, and `sendChatRequest`
emits no error, posts a request and leaves the gateway busy. -/
theorem unsupported_provider_counterexample :
    mistralWithKey.m_isProcessing = false
      ∧ mistralWithKey.m_apiKey ≠ ""
      ∧ mistralWithKey.m_currentProvider ∉ availableProviders
      ∧ (mistralWithKey.sendRequest "Hi" "" (7 / 10)).2
          = [Signal.isProcessingChanged true, Signal.isProcessingChanged false,
              Signal.errorOccurred "Unsupported provider: Mistral"]
      ∧ (mistralWithKey.sendChatRequest [] "").2 = [Signal.isProcessingChanged true]
      ∧ (mistralWithKey.sendChatRequest [] "").1.m_isProcessing = true
      ∧ (mistralWithKey.sendChatRequest [] "").1.m_networkManager.posted.length = 1 := by
  decide

/-- Claim C5, amended. A `sendRequest` issued while idle with a non-empty API key and a
provider that is none of the six known providers returns the service unchanged (idle,
nothing posted) and emits exactly `isProcessingChanged` (reading true),
`isProcessingChanged` (reading false) and `errorOccurred("Unsupported provider: <id>")`. -/
theorem sendRequest_unsupported_provider (self : AIProviderService) (prompt model : String)
    (temperature : Rat)
    (hIdle : self.m_isProcessing = false)
    (hKey : self.m_apiKey ≠ "")
    (hProvider : self.m_currentProvider ∉ availableProviders) :
    self.sendRequest prompt model temperature
      = (self, [Signal.isProcessingChanged true, Signal.isProcessingChanged false,
          Signal.errorOccurred ("Unsupported provider: " ++ self.m_currentProvider)]) := by
  obtain ⟨mgr, busy, provider, key, cur⟩ := self
  simp only [availableProviders, List.mem_cons, List.mem_singleton, not_or, List.not_mem_nil, or_false] at hProvider
  obtain ⟨h1, h2, h3, h4, h5, h6⟩ := hProvider
  simp at hIdle hKey
  subst hIdle
  simp [sendRequest, hKey, h1, h2, h3, h4, h5, h6]

/-- Witness for C5 (amended): provider `Mistral`, key `K`. -/
theorem sendRequest_unsupported_provider_witness :
    mistralWithKey.sendRequest "Hi" "" (7 / 10)
      = (mistralWithKey, [Signal.isProcessingChanged true, Signal.isProcessingChanged false,
          Signal.errorOccurred "Unsupported provider: Mistral"]) :=
  sendRequest_unsupported_provider mistralWithKey "Hi" "" (7 / 10) rfl (by decide) (by decide)

/-- Claim C6. A transport completion whose handle is not the current reply handle emits no
signal and returns the service unchanged. -/
theorem stale_completion_discarded (self : AIProviderService) (reply : QNetworkReply)
    (hStale : self.m_currentReply ≠ some reply.handle) :
    self.handleNetworkReply reply = (self, []) := by
  have h : some reply.handle ≠ self.m_currentReply := fun e => hStale e.symm
  simp [handleNetworkReply, h]

/-- Witness for C6: handle `2` completes while handle `1` is the current one. -/
theorem stale_completion_discarded_witness :
    openaiPending.handleNetworkReply ⟨2, NetworkError.NoError, "", QJsonDocument.null⟩
      = (openaiPending, []) :=
  stale_completion_discarded openaiPending ⟨2, NetworkError.NoError, "", QJsonDocument.null⟩
    (by decide)

/-- Claim C7. Along every trace of gateway operations from the initial state in which each
handle completes at most once, the values of `isProcessing` read at the successive
`isProcessingChanged` emissions alternate, starting with true. -/
theorem isProcessing_timeline_alternates (ops : List GatewayOp)
    (hOnce : (completedHandles ops).Nodup) :
    Alternates true (processingTimeline (run init ops).2) :=
  timeline_alternates_from ops init hOnce (fun _ h hh => absurd hh (by simp [init]))

/-- Witness for C7: two requests, each completed once, give the timeline true, false, true, false. -/
theorem isProcessing_timeline_alternates_witness :
    (completedHandles twoRoundTrips).Nodup
      ∧ processingTimeline (run init twoRoundTrips).2 = [true, false, true, false]
      ∧ Alternates true (processingTimeline (run init twoRoundTrips).2) :=
  ⟨by decide, by decide, isProcessing_timeline_alternates twoRoundTrips (by decide)⟩

/-- Claim C8. For every token count and model, `estimateCost` is `tokens / 1000` times the
rate of the first row of the pricing table, top to bottom, one of whose substrings occurs
in the model, and `0` when no row matches; `estimateCost(19, "gpt-4o")` is `0.00057`. -/
theorem estimateCost_first_matching_row :
    (∀ (tokens : Int) (model : String),
        estimateCost tokens model = (tokens : Rat) / 1000 * firstMatchingRate model specCostTable)
      ∧ estimateCost 19 "gpt-4o" = 57 / 100000 := by
  constructor
  · intro tokens model
    unfold estimateCost
    simp only [specCostTable, firstMatchingRate, List.any_cons, List.any_nil, Bool.or_false,
      Bool.or_eq_true]
    split_ifs <;> ring
  · unfold estimateCost
    rw [if_pos (by decide)]
    norm_num

/-- Counterexample to claim C9. The models `gpt-4` and `GPT-4` differ only in letter case,
yet 1000 tokens cost `0.03` for the first and `0` for the second. -/
theorem estimateCost_case_counterexample :
    sameUpToCase "gpt-4" "GPT-4"
      ∧ estimateCost 1000 "gpt-4" = 3 / 100
      ∧ estimateCost 1000 "GPT-4" = 0
      ∧ estimateCost 1000 "gpt-4" ≠ estimateCost 1000 "GPT-4" := by
  have h1 : estimateCost 1000 "gpt-4" = 3 / 100 := by
    unfold estimateCost
    rw [if_pos (by decide)]
    norm_num
  have h2 : estimateCost 1000 "GPT-4" = 0 := by
    unfold estimateCost
    rw [if_neg (by decide), if_neg (by decide), if_neg (by decide), if_neg (by decide),
      if_neg (by decide), if_neg (by decide), if_neg (by decide)]
  refine ⟨by unfold sameUpToCase; decide, h1, h2, ?_⟩
  rw [h1, h2]
  norm_num

/-- Claim C9, amended. The classification is case sensitive: two models get the same cost
for every token count when each priced substring occurs, as spelled in the table, in
both or in neither. -/
theorem estimateCost_same_substrings (tokens : Int) (a b : String)
    (h : ∀ sub ∈ pricedSubstrings, QString.contains a sub = QString.contains b sub) :
    estimateCost tokens a = estimateCost tokens b := by
  simp only [pricedSubstrings, List.mem_cons, List.mem_singleton, List.not_mem_nil, or_false,
    forall_eq_or_imp, forall_eq] at h
  obtain ⟨h1, h2, h3, h4, h5, h6⟩ := h
  unfold estimateCost
  rw [h1, h2, h3, h4, h5, h6]
  simp

/-- Witness for C9 (amended): `gpt-4-Turbo` and `gpt-4-turbo` differ in case outside the
matched substring and cost the same. -/
theorem estimateCost_same_substrings_witness :
    sameUpToCase "gpt-4-Turbo" "gpt-4-turbo"
      ∧ estimateCost 1000 "gpt-4-Turbo" = estimateCost 1000 "gpt-4-turbo" :=
  ⟨by unfold sameUpToCase; decide,
    estimateCost_same_substrings 1000 "gpt-4-Turbo" "gpt-4-turbo" (by decide)⟩

/-- Claim C10. For every model and natural token counts `t1 ≤ t2`,
`0 ≤ estimateCost t1 model ≤ estimateCost t2 model`. -/
theorem estimateCost_nonneg_monotone (model : String) (t1 t2 : Nat) (h : t1 ≤ t2) :
    0 ≤ estimateCost t1 model ∧ estimateCost t1 model ≤ estimateCost t2 model := by
  have h0 : (0 : Rat) ≤ (t1 : Rat) := Nat.cast_nonneg t1
  have hle : (t1 : Rat) ≤ (t2 : Rat) := by exact_mod_cast h
  unfold estimateCost
  split_ifs <;> push_cast <;> constructor <;> linarith

/-- Witness for C10: model `gpt-4`, token counts 1 and 2. -/
theorem estimateCost_nonneg_monotone_witness :
    0 ≤ estimateCost (1 : Nat) "gpt-4"
      ∧ estimateCost (1 : Nat) "gpt-4" ≤ estimateCost (2 : Nat) "gpt-4" :=
  estimateCost_nonneg_monotone "gpt-4" 1 2 (by decide)

/-! ## Lemmas on strings, objects and envelopes -/

/-- The search `containsChars` finds exactly the contiguous sublists. -/
theorem containsChars_iff_contiguous (s sub : List Char) :
    containsChars s sub = true ↔ sub <:+: s := by
  induction s with
  | nil => simp [containsChars, List.isEmpty_iff]
  | cons c cs ih =>
    simp only [containsChars, Bool.or_eq_true, ih, List.infix_cons_iff, List.isPrefixOf_iff_prefix]

/-- A model that contains a string contains every string occurring in it. -/
theorem contains_of_contains_longer (model longer shorter : String)
    (hsub : QString.contains longer shorter = true)
    (h : QString.contains model longer = true) :
    QString.contains model shorter = true := by
  unfold QString.contains at *
  rw [containsChars_iff_contiguous] at *
  exact List.IsInfix.trans hsub h

/-- A key whose value is not `Undefined` is contained in the object. -/
theorem contains_of_value_ne_undefined (o : QJsonObject) (key : String)
    (h : o.value key ≠ QJsonValue.undefined) : o.contains key = true := by
  unfold QJsonObject.value at h
  unfold QJsonObject.contains
  cases hf : o.entries.find? (fun e => e.1 == key) with
  | none => rw [hf] at h; exact absurd rfl h
  | some e =>
    rw [List.any_eq_true]
    exact ⟨e, List.mem_of_find?_eq_some hf, by simpa using List.find?_some hf⟩

/-- After `postJson` the latest posted envelope is the one just handed over. -/
theorem lastPosted_postJson (s : AIProviderService) (request : QNetworkRequest)
    (json : QJsonObject) : lastPosted (s.postJson request json) = some (request, json) := by
  simp [lastPosted, postJson, QNetworkAccessManager.post]

/-- The scan passes over text without a percent sign unchanged. -/
theorem argPieces_text (l : List Char) (hl : ∀ c ∈ l, c ≠ '%') :
    ∀ (rest : List Char) (fuel : Nat), l.length + rest.length ≤ fuel →
      argPieces fuel (l ++ rest) = l.map ArgPiece.text ++ argPieces (fuel - l.length) rest := by
  induction l with
  | nil => intro rest fuel _; simp
  | cons c l ih =>
    intro rest fuel hf
    have hc : c ≠ '%' := hl c (List.mem_cons_self _ _)
    have hl2 : ∀ d ∈ l, d ≠ '%' := fun d hd => hl d (List.mem_cons_of_mem _ hd)
    obtain ⟨f, rfl⟩ : ∃ f, fuel = f + 1 := ⟨fuel - 1, by simp at hf; omega⟩
    have hf2 : l.length + rest.length ≤ f := by simp at hf; omega
    simp only [List.cons_append, argPieces, hc, if_false, List.map_cons, List.length_cons,
      Nat.add_sub_add_right]
    exact congrArg _ (ih hl2 rest f hf2)

/-- Plain text in front does not change the lowest place marker. -/
theorem minEscape_text_append (l : List Char) (ps : List ArgPiece) :
    minEscape (l.map ArgPiece.text ++ ps) = minEscape ps := by
  induction l with
  | nil => rfl
  | cons c l ih => simpa [minEscape] using ih

/-- Substitution leaves plain text as it is. -/
theorem flatMap_text (l : List Char) (f : ArgPiece → List Char)
    (hf : ∀ c, f (ArgPiece.text c) = [c]) :
    (l.map ArgPiece.text).flatMap f = l := by
  induction l with
  | nil => rfl
  | cons c l ih => simp [List.flatMap_cons, hf, ih]

/-- The first `arg` call on the Gemini format puts the model in place of `%1`. -/
theorem geminiUrl_first_arg (model : String) :
    QString.arg
        "https://generativelanguage.googleapis.com/v1beta/models/%1:generateContent?key=%2"
        model
      = String.mk ("https://generativelanguage.googleapis.com/v1beta/models/".data
          ++ model.data ++ ":generateContent?key=".data ++ ['%', '2']) := by
  have hp : argPieces
      "https://generativelanguage.googleapis.com/v1beta/models/%1:generateContent?key=%2".length
      "https://generativelanguage.googleapis.com/v1beta/models/%1:generateContent?key=%2".data
      = "https://generativelanguage.googleapis.com/v1beta/models/".data.map ArgPiece.text
        ++ ([ArgPiece.escape 1 ['%', '1']]
          ++ (":generateContent?key=".data.map ArgPiece.text ++ [ArgPiece.escape 2 ['%', '2']])) := by
    decide
  have hm : minEscape
      ("https://generativelanguage.googleapis.com/v1beta/models/".data.map ArgPiece.text
        ++ ([ArgPiece.escape 1 ['%', '1']]
          ++ (":generateContent?key=".data.map ArgPiece.text ++ [ArgPiece.escape 2 ['%', '2']])))
      = some 1 := by
    decide
  unfold QString.arg
  simp only [hp, hm]
  rw [List.flatMap_append, List.flatMap_append, List.flatMap_append, flatMap_text _ _ (fun _ => rfl),
    flatMap_text _ _ (fun _ => rfl)]
  simp [List.flatMap_cons]

/-- On text without a percent sign followed by `%2`, `arg` puts its argument in place of `%2`. -/
theorem arg_of_single_trailing_marker (l : List Char) (hl : ∀ c ∈ l, c ≠ '%') (a : String) :
    QString.arg (String.mk (l ++ ['%', '2'])) a = String.mk (l ++ a.data) := by
  have hlen : (String.mk (l ++ ['%', '2'])).length = l.length + 2 := by
    simp [String.length]
  have hp : argPieces (l.length + 2) (l ++ ['%', '2'])
      = l.map ArgPiece.text ++ [ArgPiece.escape 2 ['%', '2']] := by
    rw [argPieces_text l hl ['%', '2'] (l.length + 2) (by simp)]
    have h2 : l.length + 2 - l.length = 2 := by omega
    rw [h2]
    rfl
  have hm : minEscape (l.map ArgPiece.text ++ [ArgPiece.escape 2 ['%', '2']]) = some 2 := by
    rw [minEscape_text_append]
    rfl
  unfold QString.arg
  simp only [hlen, hp, hm]
  rw [List.flatMap_append, flatMap_text _ _ (fun _ => rfl)]
  simp [List.flatMap_cons]

/-- For a model without a percent sign the Gemini URL is the concatenation the
specification gives. -/
theorem geminiUrl_of_no_percent (model key : String) (h : ∀ c ∈ model.data, c ≠ '%') :
    geminiUrl model key
      = "https://generativelanguage.googleapis.com/v1beta/models/" ++ model
        ++ ":generateContent?key=" ++ key := by
  unfold geminiUrl
  rw [geminiUrl_first_arg, arg_of_single_trailing_marker]
  · apply String.ext
    simp [String.data_append]
  · intro c hc
    simp only [List.mem_append] at hc
    rcases hc with (hc | hc) | hc
    · intro hp
      subst hp
      revert hc
      decide
    · exact h c hc
    · intro hp
      subst hp
      revert hc
      decide

/-- For the six known providers `getDefaultModel` is the default model of the specification. -/
theorem getDefaultModel_eq_spec (s : AIProviderService)
    (hProvider : s.m_currentProvider ∈ availableProviders) :
    s.getDefaultModel = specDefaultModel s.m_currentProvider := by
  obtain ⟨mgr, busy, provider, key, cur⟩ := s
  simp only [availableProviders, List.mem_cons, List.mem_singleton, List.not_mem_nil,
    or_false] at hProvider
  rcases hProvider with rfl | rfl | rfl | rfl | rfl | rfl <;>
    simp [getDefaultModel, specDefaultModel]

/-- For the six known providers an accepted send in either form posts the URL and headers of
the specification; for Gemini this is shown when the effective model has no percent sign. -/
theorem accepted_send_request_matches_spec (s : AIProviderService) (prompt model : String)
    (temperature : Rat) (messages : List QJsonObject)
    (hIdle : s.m_isProcessing = false)
    (hProvider : s.m_currentProvider ∈ availableProviders)
    (hKey : providerRequiresApiKey s.m_currentProvider = true → s.m_apiKey ≠ "")
    (hModel : s.m_currentProvider = "Gemini" →
      ∀ c ∈ (if model = "" then s.getDefaultModel else model).data, c ≠ '%') :
    (lastPosted (s.sendRequest prompt model temperature).1).map Prod.fst
        = some (specRequest s.m_currentProvider s.m_apiKey
            (if model = "" then s.getDefaultModel else model))
      ∧ (lastPosted (s.sendChatRequest messages model).1).map Prod.fst
        = some (specRequest s.m_currentProvider s.m_apiKey
            (if model = "" then s.getDefaultModel else model)) := by
  obtain ⟨mgr, busy, provider, key, cur⟩ := s
  simp only at hIdle hProvider hKey hModel
  subst hIdle
  simp only [availableProviders, List.mem_cons, List.mem_singleton, List.not_mem_nil,
    or_false] at hProvider
  rcases hProvider with rfl | rfl | rfl | rfl | rfl | rfl
  · simp [sendRequest, sendChatRequest, providerRequiresApiKey, lastPosted_postJson]
    rfl
  · have hk : key ≠ "" := hKey (by decide)
    simp [sendRequest, sendChatRequest, providerRequiresApiKey, lastPosted_postJson, hk]
    rfl
  · have hk : key ≠ "" := hKey (by decide)
    have hd : ∀ b : Bool, (AIProviderService.mk mgr b "Gemini" key cur).getDefaultModel
        = "gemini-1.5-flash" := fun b => by simp [getDefaultModel]
    have hModel2 := hModel rfl
    simp only [hd] at hModel2 ⊢
    have hu := geminiUrl_of_no_percent _ key hModel2
    simp [sendRequest, sendChatRequest, providerRequiresApiKey, lastPosted_postJson, hk, hu, hd]
    rfl
  all_goals
    have hk : key ≠ "" := hKey (by decide)
    simp [sendRequest, sendChatRequest, providerRequiresApiKey, lastPosted_postJson, hk]
    rfl

/-- For the known providers other than Gemini, the `model` member of the posted body is the
model of the request when it is not empty and the default model of the provider otherwise. -/
theorem accepted_send_model_field (s : AIProviderService) (prompt model : String)
    (temperature : Rat) (messages : List QJsonObject)
    (hIdle : s.m_isProcessing = false)
    (hProvider : s.m_currentProvider ∈ availableProviders)
    (hNotGemini : s.m_currentProvider ≠ "Gemini")
    (hKey : providerRequiresApiKey s.m_currentProvider = true → s.m_apiKey ≠ "") :
    (lastPosted (s.sendRequest prompt model temperature).1).map (fun e => e.2.value "model")
        = some (QJsonValue.string
            (if model = "" then specDefaultModel s.m_currentProvider else model))
      ∧ (lastPosted (s.sendChatRequest messages model).1).map (fun e => e.2.value "model")
        = some (QJsonValue.string
            (if model = "" then specDefaultModel s.m_currentProvider else model)) := by
  rw [← getDefaultModel_eq_spec s hProvider]
  obtain ⟨mgr, busy, provider, key, cur⟩ := s
  simp only at hIdle hProvider hKey hNotGemini
  subst hIdle
  simp only [availableProviders, List.mem_cons, List.mem_singleton, List.not_mem_nil,
    or_false] at hProvider
  rcases hProvider with rfl | rfl | rfl | rfl | rfl | rfl
  · simp [sendRequest, sendChatRequest, providerRequiresApiKey, lastPosted_postJson]
    constructor <;> rfl
  · have hk : key ≠ "" := hKey (by decide)
    simp [sendRequest, sendChatRequest, providerRequiresApiKey, lastPosted_postJson, hk]
    constructor <;> rfl
  · exact absurd rfl hNotGemini
  all_goals
    have hk : key ≠ "" := hKey (by decide)
    simp [sendRequest, sendChatRequest, providerRequiresApiKey, lastPosted_postJson, hk]
    constructor <;> rfl

/-! ## The claims on pricing, envelopes and parsers -/

/-- Counterexample to claim C11. For the model `claude-3-sonnet`, which the usage view
itself stores, 1000 tokens cost `0.01` by `calculateCost` and `0.003` by `estimateCost`. -/
theorem calculateCost_counterexample :
    UsageRecord.calculateCost 1000 "claude-3-sonnet" = 1 / 100
      ∧ estimateCost 1000 "claude-3-sonnet" = 3 / 1000
      ∧ UsageRecord.calculateCost 1000 "claude-3-sonnet" ≠ estimateCost 1000 "claude-3-sonnet" := by
  have h1 : UsageRecord.calculateCost 1000 "claude-3-sonnet" = 1 / 100 := by
    unfold UsageRecord.calculateCost
    rw [if_neg (by decide), if_neg (by decide), if_pos (by decide)]
    norm_num
  have h2 : estimateCost 1000 "claude-3-sonnet" = 3 / 1000 := by
    unfold estimateCost
    rw [if_neg (by decide), if_neg (by decide), if_neg (by decide), if_pos (by decide)]
    norm_num
  refine ⟨h1, h2, ?_⟩
  rw [h1, h2]
  norm_num

/-- Claim C11, amended. `UsageRecord::calculateCost` has its own table (`gpt-4`, `gpt-3.5`,
`claude`); it equals `estimateCost` for every token count on a model that contains
`gpt-4` or `gpt-3.5`, or contains neither `claude` nor `deepseek`. -/
theorem calculateCost_agrees_with_estimateCost (tokens : Int) (model : String)
    (h : QString.contains model "gpt-4" = true ∨ QString.contains model "gpt-3.5" = true
      ∨ (QString.contains model "claude" = false ∧ QString.contains model "deepseek" = false)) :
    UsageRecord.calculateCost tokens model = estimateCost tokens model := by
  unfold UsageRecord.calculateCost estimateCost
  by_cases h4 : QString.contains model "gpt-4" = true
  · rw [if_pos h4, if_pos h4]
  · rw [if_neg h4, if_neg h4]
    by_cases h35 : QString.contains model "gpt-3.5" = true
    · rw [if_pos h35, if_pos h35]
    · rw [if_neg h35, if_neg h35]
      rcases h with h | h | ⟨hc, hd⟩
      · exact absurd h h4
      · exact absurd h h35
      · have no (longer : String) (hl : QString.contains longer "claude" = true) :
            ¬ QString.contains model longer = true := by
          intro hm
          have := contains_of_contains_longer model longer "claude" hl hm
          rw [hc] at this
          exact absurd this (by decide)
        have ho := no "claude-3-opus" (by decide)
        have hs := no "claude-3-sonnet" (by decide)
        have h5 := no "claude-3-5" (by decide)
        simp [hc, hd, ho, hs, h5]

/-- Witness for C11 (amended): 500 tokens of `gpt-3.5-turbo`. -/
theorem calculateCost_agrees_with_estimateCost_witness :
    UsageRecord.calculateCost 500 "gpt-3.5-turbo" = estimateCost 500 "gpt-3.5-turbo" :=
  calculateCost_agrees_with_estimateCost 500 "gpt-3.5-turbo" (by decide)

set_option maxRecDepth 100000 in
/-- Claim C12, evaluated on the code. With provider `Gemini` and key `K` the model
`gemini-1.5-flash` gives the URL of the claim, but for the model `tunedModels%2Fmy-model`
the second `arg` call replaces the `%2` inside the model as well: the key lands in the
path and the model segment is not the model. -/
theorem gemini_url_with_marker_in_model :
    (lastPosted (geminiWithKey.sendRequest "hello" "gemini-1.5-flash" (7 / 10)).1).map
        (fun e => e.1.url)
      = some "https://generativelanguage.googleapis.com/v1beta/models/gemini-1.5-flash:generateContent?key=K"
      ∧ (lastPosted (geminiWithKey.sendRequest "hello" "tunedModels%2Fmy-model" (7 / 10)).1).map
        (fun e => e.1.url)
      = some "https://generativelanguage.googleapis.com/v1beta/models/tunedModelsKFmy-model:generateContent?key=K" := by
  decide

/-- For every prompt, model and temperature the four builders return exactly the body of
their dialect with one user message, and `sendRequest("Hi", "", 0.7)` on the default
Ollama gateway posts that body with model `llama3.2`. -/
theorem create_request_bodies (prompt model : String) (temperature : Rat) :
    createOpenAIRequest prompt model temperature
        = ⟨[("model", QJsonValue.string model),
            ("messages", QJsonValue.array [QJsonValue.object
              [("role", QJsonValue.string "user"), ("content", QJsonValue.string prompt)]]),
            ("temperature", QJsonValue.double temperature),
            ("stream", QJsonValue.bool false)]⟩
      ∧ createAnthropicRequest prompt model temperature
        = ⟨[("model", QJsonValue.string model),
            ("messages", QJsonValue.array [QJsonValue.object
              [("role", QJsonValue.string "user"), ("content", QJsonValue.string prompt)]]),
            ("max_tokens", QJsonValue.double 4096),
            ("temperature", QJsonValue.double temperature)]⟩
      ∧ createGeminiRequest prompt model temperature
        = ⟨[("contents", QJsonValue.array [QJsonValue.object
              [("role", QJsonValue.string "user"),
                ("parts", QJsonValue.array [QJsonValue.object
                  [("text", QJsonValue.string prompt)]])]]),
            ("generationConfig", QJsonValue.object
              [("temperature", QJsonValue.double temperature),
                ("maxOutputTokens", QJsonValue.double 4096)])]⟩
      ∧ createOllamaRequest prompt model temperature
        = ⟨[("model", QJsonValue.string model),
            ("messages", QJsonValue.array [QJsonValue.object
              [("role", QJsonValue.string "user"), ("content", QJsonValue.string prompt)]]),
            ("stream", QJsonValue.bool false),
            ("options", QJsonValue.object [("temperature", QJsonValue.double temperature)])]⟩
      ∧ lastPosted (init.sendRequest "Hi" "" (7 / 10)).1
        = some (⟨"http://localhost:11434/api/chat", [("Content-Type", "application/json")]⟩,
            ⟨[("model", QJsonValue.string "llama3.2"),
              ("messages", QJsonValue.array [QJsonValue.object
                [("role", QJsonValue.string "user"), ("content", QJsonValue.string "Hi")]]),
              ("stream", QJsonValue.bool false),
              ("options", QJsonValue.object [("temperature", QJsonValue.double (7 / 10))])]⟩) := by
  refine ⟨rfl, rfl, rfl, rfl, rfl⟩

/-- Counterexample to claim C14. On the default Ollama gateway the body of `sendRequest`
has an `options` member and the body of `sendChatRequest` on the one-element list has none. -/
theorem single_vs_chat_counterexample :
    (lastPosted (init.sendRequest "Hi" "" (7 / 10)).1).map (fun e => e.2.contains "options")
        = some true
      ∧ (lastPosted (init.sendChatRequest [userMessage "Hi"] "").1).map
          (fun e => e.2.contains "options") = some false := by
  decide

/-- Claim C14, amended. For every known provider, accepted from the same idle state,
`sendRequest(prompt, model, 0.7)` and `sendChatRequest` on the one-element user message
post the same URL and headers, and the chat body is the single-prompt body without one
member: `stream` (OpenAI family), `temperature` (Anthropic), `generationConfig` (Gemini),
`options` (Ollama). -/
theorem chat_envelope_is_single_envelope_minus_one_field (s : AIProviderService)
    (prompt model : String)
    (hIdle : s.m_isProcessing = false)
    (hProvider : s.m_currentProvider ∈ availableProviders)
    (hKey : providerRequiresApiKey s.m_currentProvider = true → s.m_apiKey ≠ "") :
    (lastPosted (s.sendRequest prompt model (7 / 10)).1).isSome = true
      ∧ (lastPosted (s.sendChatRequest [userMessage prompt] model).1).map Prod.fst
        = (lastPosted (s.sendRequest prompt model (7 / 10)).1).map Prod.fst
      ∧ (lastPosted (s.sendChatRequest [userMessage prompt] model).1).map Prod.snd
        = (lastPosted (s.sendRequest prompt model (7 / 10)).1).map
            (fun e => e.2.remove (omittedByChat s.m_currentProvider)) := by
  obtain ⟨mgr, busy, provider, key, cur⟩ := s
  simp only at hIdle hProvider hKey
  subst hIdle
  simp only [availableProviders, List.mem_cons, List.mem_singleton, List.not_mem_nil,
    or_false] at hProvider
  rcases hProvider with rfl | rfl | rfl | rfl | rfl | rfl
  · simp [sendRequest, sendChatRequest, providerRequiresApiKey, lastPosted_postJson]
    rfl
  all_goals
    have hk : key ≠ "" := hKey (by decide)
    simp [sendRequest, sendChatRequest, providerRequiresApiKey, lastPosted_postJson, hk]
    rfl

/-- Witness for C14 (amended): the default Ollama gateway, prompt `Hi`. -/
theorem chat_envelope_is_single_envelope_minus_one_field_witness :
    (lastPosted (init.sendRequest "Hi" "" (7 / 10)).1).isSome = true
      ∧ (lastPosted (init.sendChatRequest [userMessage "Hi"] "").1).map Prod.fst
        = (lastPosted (init.sendRequest "Hi" "" (7 / 10)).1).map Prod.fst
      ∧ (lastPosted (init.sendChatRequest [userMessage "Hi"] "").1).map Prod.snd
        = (lastPosted (init.sendRequest "Hi" "" (7 / 10)).1).map
            (fun e => e.2.remove (omittedByChat init.m_currentProvider)) :=
  chat_envelope_is_single_envelope_minus_one_field init "Hi" "" rfl (by decide) (by decide)

set_option maxRecDepth 100000 in
/-- Claim C15, evaluated on the code. With provider `Gemini`, key `K` and the request model
`tunedModels%2Fmy-model`, `sendChatRequest` posts a URL whose model segment is
`tunedModelsKFmy-model`, not the model of the request; the body has no `model` member. -/
theorem gemini_chat_model_segment_with_marker :
    (lastPosted (geminiWithKey.sendChatRequest [userMessage "hello"]
        "tunedModels%2Fmy-model").1).map (fun e => e.1.url)
      = some "https://generativelanguage.googleapis.com/v1beta/models/tunedModelsKFmy-model:generateContent?key=K"
      ∧ (lastPosted (geminiWithKey.sendChatRequest [userMessage "hello"]
          "tunedModels%2Fmy-model").1).map (fun e => e.2.contains "model") = some false := by
  decide

/-- Counterexample to claim C16. With provider `Anthropic`, a conversation that opens with a
system message is posted with no top-level `system` member and with the system message
as first entry of `messages`. -/
theorem anthropic_system_message_counterexample :
    (lastPosted (anthropicWithKey.sendChatRequest systemThenUser "").1).map
        (fun e => e.2.contains "system") = some false
      ∧ (lastPosted (anthropicWithKey.sendChatRequest systemThenUser "").1).map
          (fun e => (((e.2.value "messages").toArray.at 0).toObject.value "role").toString)
        = some "system" := by
  decide

/-- Claim C16, amended. A multi-turn send with provider `Anthropic` posts the body with the
members `model`, `messages` and `max_tokens` only, where `messages` is the message list
unchanged and in order, system messages included. -/
theorem anthropic_chat_forwards_messages (s : AIProviderService) (messages : List QJsonObject)
    (model : String)
    (hIdle : s.m_isProcessing = false)
    (hProvider : s.m_currentProvider = "Anthropic")
    (hKey : s.m_apiKey ≠ "") :
    (lastPosted (s.sendChatRequest messages model).1).map Prod.snd
      = some ⟨[("model", QJsonValue.string (if model = "" then s.getDefaultModel else model)),
          ("messages", QJsonValue.array (messages.map QJsonValue.ofObject)),
          ("max_tokens", QJsonValue.double 4096)]⟩ := by
  obtain ⟨mgr, busy, provider, key, cur⟩ := s
  simp only at hIdle hProvider hKey
  subst hIdle hProvider
  simp [sendChatRequest, providerRequiresApiKey, lastPosted_postJson, hKey, getDefaultModel]
  rfl

/-- Witness for C16 (amended): a system message followed by a user message. -/
theorem anthropic_chat_forwards_messages_witness :
    (lastPosted (anthropicWithKey.sendChatRequest systemThenUser "").1).map Prod.snd
      = some ⟨[("model", QJsonValue.string
            (if "" = "" then anthropicWithKey.getDefaultModel else "")),
          ("messages", QJsonValue.array (systemThenUser.map QJsonValue.ofObject)),
          ("max_tokens", QJsonValue.double 4096)]⟩ :=
  anthropic_chat_forwards_messages anthropicWithKey systemThenUser "" rfl rfl (by decide)

/-- Claim C17. A multi-turn send with provider `Gemini` posts a `contents` array as long as
the message list whose entry `i` has role `model` when message `i` has role `assistant`
and `user` otherwise, and as parts the one-element list with the text of message `i`. -/
theorem gemini_chat_contents (s : AIProviderService) (messages : List QJsonObject)
    (model : String)
    (hIdle : s.m_isProcessing = false)
    (hProvider : s.m_currentProvider = "Gemini")
    (hKey : s.m_apiKey ≠ "") :
    ∃ contents : List QJsonValue,
      (lastPosted (s.sendChatRequest messages model).1).map (fun e => e.2.value "contents")
          = some (QJsonValue.array contents)
        ∧ contents.length = messages.length
        ∧ ∀ (i : Nat) (msg : QJsonObject), messages[i]? = some msg →
            contents[i]? = some (QJsonValue.object
              [("role", QJsonValue.string
                  (if (msg.value "role").toString = "assistant" then "model" else "user")),
                ("parts", QJsonValue.array
                  [QJsonValue.object [("text", QJsonValue.string (msg.value "content").toString)]])]) := by
  obtain ⟨mgr, busy, provider, key, cur⟩ := s
  simp only at hIdle hProvider hKey
  subst hIdle hProvider
  refine ⟨geminiContents messages, ?_, ?_, ?_⟩
  · simp [sendChatRequest, providerRequiresApiKey, lastPosted_postJson, hKey]
    rfl
  · simp [geminiContents]
  · intro i msg hi
    simp only [geminiContents, List.getElem?_map, hi, Option.map_some']
    rfl

/-- Witness for C17: a conversation with a system, a user and an assistant message. -/
theorem gemini_chat_contents_witness :
    ∃ contents : List QJsonValue,
      (lastPosted (geminiWithKey.sendChatRequest threeRoles "").1).map
          (fun e => e.2.value "contents") = some (QJsonValue.array contents)
        ∧ contents.length = threeRoles.length
        ∧ ∀ (i : Nat) (msg : QJsonObject), threeRoles[i]? = some msg →
            contents[i]? = some (QJsonValue.object
              [("role", QJsonValue.string
                  (if (msg.value "role").toString = "assistant" then "model" else "user")),
                ("parts", QJsonValue.array
                  [QJsonValue.object [("text", QJsonValue.string (msg.value "content").toString)]])]) :=
  gemini_chat_contents geminiWithKey threeRoles "" rfl rfl (by decide)

/-- Counterexample to claim C18. The temperatures `5` and `-1` are written into the body as
given, outside the interval from 0 to 2. -/
theorem temperature_not_clamped_counterexample :
    (lastPosted (init.sendRequest "Hi" "" 5).1).map (fun e => bodyTemperature "Ollama" e.2)
        = some (QJsonValue.double 5)
      ∧ ¬ ((5 : Rat) ≤ 2)
      ∧ (lastPosted (init.sendRequest "Hi" "" (-1)).1).map (fun e => bodyTemperature "Ollama" e.2)
        = some (QJsonValue.double (-1))
      ∧ ¬ ((0 : Rat) ≤ -1) := by
  refine ⟨rfl, by norm_num, rfl, by norm_num⟩

/-- Claim C18, amended. For every known provider a single-prompt send writes the temperature
of the caller into the body unchanged, and `0.7` when the call uses the default argument. -/
theorem temperature_written_as_given (s : AIProviderService) (prompt model : String)
    (temperature : Rat)
    (hIdle : s.m_isProcessing = false)
    (hProvider : s.m_currentProvider ∈ availableProviders)
    (hKey : providerRequiresApiKey s.m_currentProvider = true → s.m_apiKey ≠ "") :
    (lastPosted (s.sendRequest prompt model temperature).1).map
        (fun e => bodyTemperature s.m_currentProvider e.2) = some (QJsonValue.double temperature)
      ∧ (lastPosted (s.sendRequestWithDefaults prompt).1).map
        (fun e => bodyTemperature s.m_currentProvider e.2) = some (QJsonValue.double (7 / 10)) := by
  obtain ⟨mgr, busy, provider, key, cur⟩ := s
  simp only at hIdle hProvider hKey
  subst hIdle
  simp only [availableProviders, List.mem_cons, List.mem_singleton, List.not_mem_nil,
    or_false] at hProvider
  rcases hProvider with rfl | rfl | rfl | rfl | rfl | rfl
  · simp [sendRequestWithDefaults, sendRequest, providerRequiresApiKey, lastPosted_postJson]
    constructor <;> rfl
  all_goals
    have hk : key ≠ "" := hKey (by decide)
    simp [sendRequestWithDefaults, sendRequest, providerRequiresApiKey, lastPosted_postJson, hk]
    constructor <;> rfl

/-- Witness for C18 (amended): provider `Gemini`, temperature `5`. -/
theorem temperature_written_as_given_witness :
    (lastPosted (geminiWithKey.sendRequest "Hi" "" 5).1).map
        (fun e => bodyTemperature geminiWithKey.m_currentProvider e.2) = some (QJsonValue.double 5)
      ∧ (lastPosted (geminiWithKey.sendRequestWithDefaults "Hi").1).map
        (fun e => bodyTemperature geminiWithKey.m_currentProvider e.2)
          = some (QJsonValue.double (7 / 10)) :=
  temperature_written_as_given geminiWithKey "Hi" "" 5 rfl (by decide) (by decide)

/-- Claim C19. When the response document is not a JSON object, each parser emits exactly
`errorOccurred("Invalid response format")`, for Ollama
`errorOccurred("Invalid response format from Ollama")`, and nothing else. -/
theorem non_object_body_is_invalid_format (doc : QJsonDocument) (h : doc.isObject = false) :
    parseOpenAIResponse doc = [Signal.errorOccurred "Invalid response format"]
      ∧ parseAnthropicResponse doc = [Signal.errorOccurred "Invalid response format"]
      ∧ parseGeminiResponse doc = [Signal.errorOccurred "Invalid response format"]
      ∧ parseOllamaResponse doc = [Signal.errorOccurred "Invalid response format from Ollama"] := by
  simp [parseOpenAIResponse, parseAnthropicResponse, parseGeminiResponse, parseOllamaResponse, h]

/-- Witness for C19: a body that failed to parse. -/
theorem non_object_body_is_invalid_format_witness :
    parseOpenAIResponse QJsonDocument.null = [Signal.errorOccurred "Invalid response format"]
      ∧ parseAnthropicResponse QJsonDocument.null = [Signal.errorOccurred "Invalid response format"]
      ∧ parseGeminiResponse QJsonDocument.null = [Signal.errorOccurred "Invalid response format"]
      ∧ parseOllamaResponse QJsonDocument.null
        = [Signal.errorOccurred "Invalid response format from Ollama"] :=
  non_object_body_is_invalid_format QJsonDocument.null rfl

/-- Counterexample to claim C20. For a top-level error object with message `boom` the
Ollama parser emits `Ollama Error: ` with an empty text, since it reads `error` as a string. -/
theorem ollama_error_object_counterexample :
    parseOllamaResponse (QJsonDocument.object
        ⟨[("error", QJsonValue.object [("message", QJsonValue.string "boom")])]⟩)
      = [Signal.errorOccurred "Ollama Error: "]
      ∧ parseOllamaResponse (QJsonDocument.object
          ⟨[("error", QJsonValue.object [("message", QJsonValue.string "boom")])]⟩)
        ≠ [Signal.errorOccurred "Ollama Error: boom"] := by
  decide

/-- Claim C20, amended. For an object whose top-level `error` is an object with the string
message `m`, the OpenAI, Anthropic and Gemini parsers emit exactly
`errorOccurred("API Error: " + m)`; for an object whose top-level `error` is the string
`m`, the Ollama parser emits exactly `errorOccurred("Ollama Error: " + m)`; nothing else is
emitted, whatever reply text or usage the object carries. -/
theorem provider_error_is_reported (obj : QJsonObject) (m : String) :
    (∀ e : List (String × QJsonValue), obj.value "error" = QJsonValue.object e →
        (QJsonObject.mk e).value "message" = QJsonValue.string m →
        parseOpenAIResponse (QJsonDocument.object obj)
            = [Signal.errorOccurred ("API Error: " ++ m)]
          ∧ parseAnthropicResponse (QJsonDocument.object obj)
            = [Signal.errorOccurred ("API Error: " ++ m)]
          ∧ parseGeminiResponse (QJsonDocument.object obj)
            = [Signal.errorOccurred ("API Error: " ++ m)])
      ∧ (obj.value "error" = QJsonValue.string m →
          parseOllamaResponse (QJsonDocument.object obj)
            = [Signal.errorOccurred ("Ollama Error: " ++ m)]) := by
  constructor
  · intro e hError hMessage
    have hc : obj.contains "error" = true :=
      contains_of_value_ne_undefined obj "error" (by rw [hError]; exact fun h => by cases h)
    simp [parseOpenAIResponse, parseAnthropicResponse, parseGeminiResponse,
      QJsonDocument.isObject, QJsonDocument.toObject, hc, hError, QJsonValue.toObject, hMessage,
      QJsonValue.toString]
  · intro hError
    have hc : obj.contains "error" = true :=
      contains_of_value_ne_undefined obj "error" (by rw [hError]; exact fun h => by cases h)
    simp [parseOllamaResponse, QJsonDocument.isObject, QJsonDocument.toObject, hc, hError,
      QJsonValue.toString]

/-- Witness for C20 (amended): an error object and an error string, each next to reply text. -/
theorem provider_error_is_reported_witness :
    (parseOpenAIResponse (QJsonDocument.object errorObjectWithReply)
          = [Signal.errorOccurred ("API Error: " ++ "Rate limit reached")]
        ∧ parseAnthropicResponse (QJsonDocument.object errorObjectWithReply)
          = [Signal.errorOccurred ("API Error: " ++ "Rate limit reached")]
        ∧ parseGeminiResponse (QJsonDocument.object errorObjectWithReply)
          = [Signal.errorOccurred ("API Error: " ++ "Rate limit reached")])
      ∧ parseOllamaResponse (QJsonDocument.object errorStringWithReply)
        = [Signal.errorOccurred ("Ollama Error: " ++ "model not found")] :=
  ⟨(provider_error_is_reported errorObjectWithReply "Rate limit reached").1
      [("message", QJsonValue.string "Rate limit reached")] rfl rfl,
    (provider_error_is_reported errorStringWithReply "model not found").2 rfl⟩

/-! ## Lemmas on parsers and view models -/

/-- A key that the object does not contain reads as `Undefined`. -/
theorem value_of_not_contains (o : QJsonObject) (key : String)
    (h : o.contains key = false) : o.value key = QJsonValue.undefined := by
  by_contra hne
  rw [contains_of_value_ne_undefined o key hne] at h
  exact absurd h (by decide)

/-- The conversion `toInt` returns a whole number in the range of `int` unchanged. -/
theorem toInt_of_int (i : Int) (h : inIntRange i) : (QJsonValue.double (i : Rat)).toInt = i := by
  unfold inIntRange at h
  simp [QJsonValue.toInt, h.1, h.2]

/-- When the OpenAI reply path holds a string, `choices` is present and not empty. -/
theorem openAI_reply_present (obj : QJsonObject) (s : String)
    (hp : openAIReplyPath obj = QJsonValue.string s) :
    obj.contains "choices" = true ∧ (obj.value "choices").toArray ≠ [] := by
  unfold openAIReplyPath at hp
  constructor
  · by_contra hc
    rw [value_of_not_contains obj "choices" (by simpa using hc)] at hp
    simp [QJsonValue.toArray, QJsonArray.at, QJsonValue.toObject, QJsonObject.empty,
      QJsonObject.value] at hp
  · intro he
    rw [he] at hp
    simp [QJsonArray.at, QJsonValue.toObject, QJsonObject.empty, QJsonObject.value] at hp

/-- When the Anthropic reply path holds a string, `content` is present and not empty. -/
theorem anthropic_reply_present (obj : QJsonObject) (s : String)
    (hp : anthropicReplyPath obj = QJsonValue.string s) :
    obj.contains "content" = true ∧ (obj.value "content").toArray ≠ [] := by
  unfold anthropicReplyPath at hp
  constructor
  · by_contra hc
    rw [value_of_not_contains obj "content" (by simpa using hc)] at hp
    simp [QJsonValue.toArray, QJsonArray.at, QJsonValue.toObject, QJsonObject.empty,
      QJsonObject.value] at hp
  · intro he
    rw [he] at hp
    simp [QJsonArray.at, QJsonValue.toObject, QJsonObject.empty, QJsonObject.value] at hp

/-- The OpenAI parser on a body with reply text and a usage object. -/
theorem parseOpenAIResponse_with_usage (obj : QJsonObject) (text : String)
    (u : List (String × QJsonValue)) (i o : Int)
    (hNoError : obj.contains "error" = false)
    (hp : openAIReplyPath obj = QJsonValue.string text)
    (hUsage : obj.value "usage" = QJsonValue.object u)
    (hIn : (QJsonObject.mk u).value "prompt_tokens" = QJsonValue.double i)
    (hOut : (QJsonObject.mk u).value "completion_tokens" = QJsonValue.double o)
    (hi : inIntRange i) (ho : inIntRange o) :
    parseOpenAIResponse (QJsonDocument.object obj)
      = [Signal.responseReceived text, Signal.tokensUsed i o] := by
  obtain ⟨hc, hne⟩ := openAI_reply_present obj text hp
  have hu : obj.contains "usage" = true :=
    contains_of_value_ne_undefined obj "usage" (by rw [hUsage]; exact fun h => by cases h)
  unfold openAIReplyPath at hp
  unfold parseOpenAIResponse
  simp only [QJsonDocument.isObject, QJsonDocument.toObject, hNoError, hc, hp, hu,
    QJsonValue.toString, List.isEmpty_iff, hne]
  simp only [hUsage, QJsonValue.toObject, hIn, hOut, toInt_of_int i hi, toInt_of_int o ho]
  simp

/-- The Anthropic parser on a body with reply text and a usage object. -/
theorem parseAnthropicResponse_with_usage (obj : QJsonObject) (text : String)
    (u : List (String × QJsonValue)) (i o : Int)
    (hNoError : obj.contains "error" = false)
    (hp : anthropicReplyPath obj = QJsonValue.string text)
    (hUsage : obj.value "usage" = QJsonValue.object u)
    (hIn : (QJsonObject.mk u).value "input_tokens" = QJsonValue.double i)
    (hOut : (QJsonObject.mk u).value "output_tokens" = QJsonValue.double o)
    (hi : inIntRange i) (ho : inIntRange o) :
    parseAnthropicResponse (QJsonDocument.object obj)
      = [Signal.responseReceived text, Signal.tokensUsed i o] := by
  obtain ⟨hc, hne⟩ := anthropic_reply_present obj text hp
  have hu : obj.contains "usage" = true :=
    contains_of_value_ne_undefined obj "usage" (by rw [hUsage]; exact fun h => by cases h)
  unfold anthropicReplyPath at hp
  unfold parseAnthropicResponse
  simp only [QJsonDocument.isObject, QJsonDocument.toObject, hNoError, hc, hp, hu,
    QJsonValue.toString, List.isEmpty_iff, hne]
  simp only [hUsage, QJsonValue.toObject, hIn, hOut, toInt_of_int i hi, toInt_of_int o ho]
  simp

/-- The Gemini parser never emits `tokensUsed`. -/
theorem parseGeminiResponse_no_tokens (doc : QJsonDocument) (a b : Int) :
    Signal.tokensUsed a b ∉ parseGeminiResponse doc := by
  unfold parseGeminiResponse
  dsimp only
  split_ifs <;> simp

/-- The Ollama parser never emits `tokensUsed`. -/
theorem parseOllamaResponse_no_tokens (doc : QJsonDocument) (a b : Int) :
    Signal.tokensUsed a b ∉ parseOllamaResponse doc := by
  unfold parseOllamaResponse
  dsimp only
  split_ifs <;> simp

/-- A successful completion of the current handle emits `isProcessingChanged` and then what
the parser of the provider selected at that moment emits. -/
theorem handleNetworkReply_current_ok (s : AIProviderService) (reply : QNetworkReply)
    (hCurrent : s.m_currentReply = some reply.handle)
    (hOk : reply.error = NetworkError.NoError) :
    (s.handleNetworkReply reply).2
      = Signal.isProcessingChanged false :: parseResponseFor s.m_currentProvider reply.document := by
  have h : some reply.handle = s.m_currentReply := hCurrent.symm
  unfold handleNetworkReply parseResponseFor
  simp only [h, ne_eq, not_true_eq_false, if_false, hOk]
  split_ifs <;> simp

/-- In the OpenAI parser `tokensUsed` only ever follows `responseReceived`. -/
theorem parseOpenAIResponse_tokens_after_reply (doc : QJsonDocument) (a b : Int)
    (h : Signal.tokensUsed a b ∈ parseOpenAIResponse doc) :
    ∃ text, parseOpenAIResponse doc = [Signal.responseReceived text, Signal.tokensUsed a b] := by
  unfold parseOpenAIResponse at h ⊢
  dsimp only at h ⊢
  split_ifs at h ⊢ <;> simp_all

/-- The loop of `filterByChild` appends the records of the child, in their order. -/
theorem appendMatching_eq_filter (childId : String) (records : List UsageRecord) :
    ∀ filtered : List UsageRecord,
      UsageViewModel.appendMatching childId filtered records
        = filtered ++ records.filter (fun r => decide (r.childProfileId = childId)) := by
  induction records with
  | nil => intro filtered; simp [UsageViewModel.appendMatching]
  | cons r rs ih =>
    intro filtered
    unfold UsageViewModel.appendMatching
    split_ifs with h
    · rw [ih]; simp [List.filter_cons, h]
    · rw [ih]; simp [List.filter_cons, h]

/-- Right after `filterByChild` with a non-empty child id the filtered list is the sublist
of the records of that child, in their original order, and the full list is unchanged. -/
theorem filterByChild_filtered (vm : UsageViewModel) (childId : String) (h : childId ≠ "") :
    (vm.filterByChild childId).m_filteredRecords
        = vm.m_records.filter (fun r => decide (r.childProfileId = childId))
      ∧ (vm.filterByChild childId).m_records = vm.m_records := by
  simp [UsageViewModel.filterByChild, h, appendMatching_eq_filter]

/-! ## The claims on responses, the catalog and the view models -/

/-- Claim C21, evaluated on the code. On the object without members, which has no error and
no reply path, all four parsers emit nothing; on an OpenAI body whose first choice has no
`message`, the parser emits `responseReceived` with the empty text. No `errorOccurred`
is emitted in either case. -/
theorem missing_reply_path_is_silent :
    parseOpenAIResponse (QJsonDocument.object ⟨[]⟩) = []
      ∧ parseAnthropicResponse (QJsonDocument.object ⟨[]⟩) = []
      ∧ parseGeminiResponse (QJsonDocument.object ⟨[]⟩) = []
      ∧ parseOllamaResponse (QJsonDocument.object ⟨[]⟩) = []
      ∧ openAIReplyPath choiceWithoutMessageBody = QJsonValue.undefined
      ∧ parseOpenAIResponse (QJsonDocument.object choiceWithoutMessageBody)
        = [Signal.responseReceived ""] := by
  refine ⟨by decide, by decide, by decide, by decide, rfl, by decide⟩

/-- Claim C22. For every response object without a top-level error whose reply path of the
dialect holds a string `s`, the result events of the parser are exactly one
`responseReceived(s)`, and no `errorOccurred`. -/
theorem reply_text_is_delivered (obj : QJsonObject) (s : String)
    (hNoError : obj.contains "error" = false) :
    (openAIReplyPath obj = QJsonValue.string s →
        resultEvents (parseOpenAIResponse (QJsonDocument.object obj))
          = [Signal.responseReceived s])
      ∧ (anthropicReplyPath obj = QJsonValue.string s →
        resultEvents (parseAnthropicResponse (QJsonDocument.object obj))
          = [Signal.responseReceived s])
      ∧ (geminiReplyPath obj = QJsonValue.string s →
        resultEvents (parseGeminiResponse (QJsonDocument.object obj))
          = [Signal.responseReceived s])
      ∧ (ollamaReplyPath obj = QJsonValue.string s →
        resultEvents (parseOllamaResponse (QJsonDocument.object obj))
          = [Signal.responseReceived s]) := by
  refine ⟨?_, ?_, ?_, ?_⟩
  · intro hp
    unfold openAIReplyPath at hp
    have hc : obj.contains "choices" = true := by
      by_contra hc
      rw [value_of_not_contains obj "choices" (by simpa using hc)] at hp
      simp [QJsonValue.toArray, QJsonArray.at, QJsonValue.toObject, QJsonObject.empty,
        QJsonObject.value] at hp
    have hne : (obj.value "choices").toArray ≠ [] := by
      intro he
      rw [he] at hp
      simp [QJsonArray.at, QJsonValue.toObject, QJsonObject.empty, QJsonObject.value] at hp
    unfold parseOpenAIResponse
    simp only [QJsonDocument.isObject, QJsonDocument.toObject, hNoError, hc, hp,
      QJsonValue.toString, List.isEmpty_iff, hne]
    simp only [not_true_eq_false, if_false, Bool.false_eq_true, if_true, not_false_eq_true]
    split_ifs <;> simp [resultEvents]
  · intro hp
    unfold anthropicReplyPath at hp
    have hc : obj.contains "content" = true := by
      by_contra hc
      rw [value_of_not_contains obj "content" (by simpa using hc)] at hp
      simp [QJsonValue.toArray, QJsonArray.at, QJsonValue.toObject, QJsonObject.empty,
        QJsonObject.value] at hp
    have hne : (obj.value "content").toArray ≠ [] := by
      intro he
      rw [he] at hp
      simp [QJsonArray.at, QJsonValue.toObject, QJsonObject.empty, QJsonObject.value] at hp
    unfold parseAnthropicResponse
    simp only [QJsonDocument.isObject, QJsonDocument.toObject, hNoError, hc, hp,
      QJsonValue.toString, List.isEmpty_iff, hne]
    simp only [not_true_eq_false, if_false, Bool.false_eq_true, if_true, not_false_eq_true]
    split_ifs <;> simp [resultEvents]
  · intro hp
    unfold geminiReplyPath at hp
    have hc : obj.contains "candidates" = true := by
      by_contra hc
      rw [value_of_not_contains obj "candidates" (by simpa using hc)] at hp
      simp [QJsonValue.toArray, QJsonArray.at, QJsonValue.toObject, QJsonObject.empty,
        QJsonObject.value] at hp
    have hne : (obj.value "candidates").toArray ≠ [] := by
      intro he
      rw [he] at hp
      simp [QJsonValue.toArray, QJsonArray.at, QJsonValue.toObject, QJsonObject.empty,
        QJsonObject.value] at hp
    have hne2 : ((((QJsonArray.at (obj.value "candidates").toArray 0).toObject.value
        "content").toObject).value "parts").toArray ≠ [] := by
      intro he
      rw [he] at hp
      simp [QJsonArray.at, QJsonValue.toObject, QJsonObject.empty, QJsonObject.value] at hp
    unfold parseGeminiResponse
    simp only [QJsonDocument.isObject, QJsonDocument.toObject, hNoError, hc, hp,
      QJsonValue.toString, List.isEmpty_iff, hne, hne2]
    simp [resultEvents]
  · intro hp
    unfold ollamaReplyPath at hp
    have hc : obj.contains "message" = true := by
      by_contra hc
      rw [value_of_not_contains obj "message" (by simpa using hc)] at hp
      simp [QJsonValue.toObject, QJsonObject.empty, QJsonObject.value] at hp
    unfold parseOllamaResponse
    simp only [QJsonDocument.isObject, QJsonDocument.toObject, hNoError, hc, hp,
      QJsonValue.toString]
    simp [resultEvents]

/-- Witness for C22: a body with reply `ok` for each of the four dialects. -/
theorem reply_text_is_delivered_witness :
    resultEvents (parseOpenAIResponse (QJsonDocument.object openAIOkBody))
        = [Signal.responseReceived "ok"]
      ∧ resultEvents (parseAnthropicResponse (QJsonDocument.object anthropicOkBody))
        = [Signal.responseReceived "ok"]
      ∧ resultEvents (parseGeminiResponse (QJsonDocument.object geminiOkBody))
        = [Signal.responseReceived "ok"]
      ∧ resultEvents (parseOllamaResponse (QJsonDocument.object ollamaOkBody))
        = [Signal.responseReceived "ok"] :=
  ⟨(reply_text_is_delivered openAIOkBody "ok" (by decide)).1 rfl,
    (reply_text_is_delivered anthropicOkBody "ok" (by decide)).2.1 rfl,
    (reply_text_is_delivered geminiOkBody "ok" (by decide)).2.2.1 rfl,
    (reply_text_is_delivered ollamaOkBody "ok" (by decide)).2.2.2 rfl⟩

/-- Claim C24, evaluated on the code. With provider `Anthropic`, a successful completion
whose body has an empty `content` array and a usage object emits `tokensUsed(10, 0)`
without any `responseReceived`. -/
theorem anthropic_tokens_without_reply :
    anthropicPending.m_currentProvider = "Anthropic"
      ∧ anthropicPending.m_currentReply = some anthropicEmptyContentReply.handle
      ∧ (anthropicPending.handleNetworkReply anthropicEmptyContentReply).2
        = [Signal.isProcessingChanged false, Signal.tokensUsed 10 0] := by
  decide

/-- Counterexample to claim C25. When Ollama refuses the connection the text ends in
`running (https://ollama.ai)`, not in `running.` as the claim has it. -/
theorem ollama_offline_text_counterexample :
    (ollamaPending.handleNetworkReply connectionRefusedReply).2
        = [Signal.isProcessingChanged false,
            Signal.errorOccurred
              "Network error: Cannot connect to Ollama. Please ensure Ollama is installed and running (https://ollama.ai)"]
      ∧ (ollamaPending.handleNetworkReply connectionRefusedReply).2
        ≠ [Signal.isProcessingChanged false,
            Signal.errorOccurred
              "Network error: Cannot connect to Ollama. Please ensure Ollama is installed and running."] := by
  decide

/-- Claim C25, amended. A completion of the current handle with a transport error resets
`m_isProcessing` and emits `isProcessingChanged` and exactly one
`errorOccurred("Network error: <detail>")`, where the detail is the error string of the
transport, except for provider `Ollama` with a refused connection, where it is
`ollamaOfflineMessage`; the body plays no part. -/
theorem transport_error_is_reported (s : AIProviderService) (reply : QNetworkReply)
    (hCurrent : s.m_currentReply = some reply.handle)
    (hError : reply.error ≠ NetworkError.NoError) :
    s.handleNetworkReply reply
      = ({ s with m_isProcessing := false },
          [Signal.isProcessingChanged false,
            Signal.errorOccurred ("Network error: " ++
              (if s.m_currentProvider = "Ollama"
                  ∧ reply.error = NetworkError.ConnectionRefusedError
                then ollamaOfflineMessage else reply.errorString))]) := by
  have h : some reply.handle = s.m_currentReply := hCurrent.symm
  unfold handleNetworkReply
  simp only [h, ne_eq, not_true_eq_false, if_false, hError, not_false_eq_true, if_true]
  split_ifs <;> simp [ollamaOfflineMessage]

/-- Witness for C25 (amended): a timeout on the default Ollama gateway. -/
theorem transport_error_is_reported_witness :
    ollamaPending.handleNetworkReply timeoutReply
      = ({ ollamaPending with m_isProcessing := false },
          [Signal.isProcessingChanged false,
            Signal.errorOccurred ("Network error: " ++
              (if ollamaPending.m_currentProvider = "Ollama"
                  ∧ timeoutReply.error = NetworkError.ConnectionRefusedError
                then ollamaOfflineMessage else timeoutReply.errorString))]) :=
  transport_error_is_reported ollamaPending timeoutReply (by decide) (by decide)

/-- Claim C26. For every provider of `availableProviders()`, when it is selected,
`getDefaultModel()` is not empty and is an element of `availableModels()`. -/
theorem default_model_is_listed (s : AIProviderService)
    (hProvider : s.m_currentProvider ∈ availableProviders) :
    s.getDefaultModel ≠ "" ∧ s.getDefaultModel ∈ s.availableModels := by
  obtain ⟨mgr, busy, provider, key, cur⟩ := s
  simp only [availableProviders, List.mem_cons, List.mem_singleton, List.not_mem_nil,
    or_false] at hProvider
  rcases hProvider with rfl | rfl | rfl | rfl | rfl | rfl <;>
    simp [getDefaultModel, availableModels]

/-- Witness for C26: provider `Gemini`. -/
theorem default_model_is_listed_witness :
    geminiWithKey.getDefaultModel ≠ "" ∧ geminiWithKey.getDefaultModel ∈ geminiWithKey.availableModels :=
  default_model_is_listed geminiWithKey (by decide)

/-- Claim C27. `setCurrentProvider(p)` emits `currentProviderChanged` exactly when `p` differs
from the current provider, leaves the current provider equal to `p`, and leaves the busy
flag, the reply handle, the API key and the posted requests unchanged. -/
theorem setCurrentProvider_frame (s : AIProviderService) (p : String) :
    (s.setCurrentProvider p).2
        = (if p ≠ s.m_currentProvider then [Signal.currentProviderChanged p] else [])
      ∧ (s.setCurrentProvider p).1.m_currentProvider = p
      ∧ (s.setCurrentProvider p).1.m_isProcessing = s.m_isProcessing
      ∧ (s.setCurrentProvider p).1.m_currentReply = s.m_currentReply
      ∧ (s.setCurrentProvider p).1.m_apiKey = s.m_apiKey
      ∧ (s.setCurrentProvider p).1.m_networkManager = s.m_networkManager := by
  unfold setCurrentProvider
  by_cases h : s.m_currentProvider = p
  · simp [h]
  · have h2 : ¬ p = s.m_currentProvider := fun e => h e.symm
    simp [h, h2]

/-- Counterexample to claim C28. A request is sent with provider `OpenAI`; completed as is,
the reply gives `responseReceived("ok")` and `tokensUsed(12, 7)`; after
`setCurrentProvider("Ollama")` the same completion is read by the Ollama parser and gives
no result at all. -/
theorem provider_switch_counterexample :
    openaiPending.m_currentProvider = "OpenAI"
      ∧ (openaiPending.handleNetworkReply openAIOkReply).2
        = [Signal.isProcessingChanged false, Signal.responseReceived "ok", Signal.tokensUsed 12 7]
      ∧ ((openaiPending.setCurrentProvider "Ollama").1.handleNetworkReply openAIOkReply).2
        = [Signal.isProcessingChanged false] := by
  decide

/-- Claim C28, amended. The parser applied to a successful completion is the one of the
provider selected when the completion is handled: after `setCurrentProvider(p)` between
the send and its completion, the signals are `isProcessingChanged` followed by what the
parser of `p` emits. -/
theorem completion_uses_provider_at_completion (s : AIProviderService) (p : String)
    (reply : QNetworkReply)
    (hCurrent : s.m_currentReply = some reply.handle)
    (hOk : reply.error = NetworkError.NoError) :
    ((s.setCurrentProvider p).1.handleNetworkReply reply).2
      = Signal.isProcessingChanged false :: parseResponseFor p reply.document := by
  have hp : (s.setCurrentProvider p).1.m_currentProvider = p := by
    unfold setCurrentProvider
    split_ifs with h
    · rfl
    · exact not_not.mp h
  have hr : (s.setCurrentProvider p).1.m_currentReply = some reply.handle := by
    unfold setCurrentProvider
    split_ifs <;> exact hCurrent
  generalize (s.setCurrentProvider p).1 = t at hp hr
  have h : some reply.handle = t.m_currentReply := hr.symm
  unfold handleNetworkReply parseResponseFor
  simp only [h, ne_eq, not_true_eq_false, if_false, hOk, hp]
  split_ifs <;> simp

/-- Witness for C28 (amended): the switch from `OpenAI` to `Ollama`. -/
theorem completion_uses_provider_at_completion_witness :
    ((openaiPending.setCurrentProvider "Ollama").1.handleNetworkReply openAIOkReply).2
      = Signal.isProcessingChanged false :: parseResponseFor "Ollama" openAIOkReply.document :=
  completion_uses_provider_at_completion openaiPending "Ollama" openAIOkReply (by decide) rfl

/-- Claim C29, evaluated on the code. After `sendMessage` the view model is busy; when the
request ends in `errorOccurred` (Ollama refuses the connection) the service is idle
again but the view model stays busy and ignores the next `sendMessage`; when the request
ends in `responseReceived` the view model is idle again. -/
theorem chat_stays_busy_after_error :
    chatAfterSend.m_isProcessing = true
      ∧ chatAfterSend.m_aiService.m_isProcessing = true
      ∧ (chatAfterSend.finished connectionRefusedReply).2
        = [ChatSignal.errorOccurred ("Network error: " ++ ollamaOfflineMessage)]
      ∧ (chatAfterSend.finished connectionRefusedReply).1.m_aiService.m_isProcessing = false
      ∧ (chatAfterSend.finished connectionRefusedReply).1.m_isProcessing = true
      ∧ (((chatAfterSend.finished connectionRefusedReply).1.setCurrentMessage "again").1.sendMessage).2
        = []
      ∧ (chatAfterSend.finished ollamaHelloReply).1.m_isProcessing = false := by
  decide

/-- Claim C30, evaluated on the code. After `filterByChild("child_0")` the filtered list
holds the record of `child_0`; `recordUsage` of a record of `child_1` appends it to the
full list and to the filtered list as well, which is then no longer the sublist of the
records of `child_0`. -/
theorem recordUsage_ignores_filter :
    (oneRecordView.filterByChild "child_0").m_filteredRecords = [sampleRecord "child_0"]
      ∧ ((oneRecordView.filterByChild "child_0").recordUsage (sampleRecord "child_1")).m_records
        = [sampleRecord "child_0", sampleRecord "child_1"]
      ∧ ((oneRecordView.filterByChild "child_0").recordUsage
          (sampleRecord "child_1")).m_filteredRecords
        = [sampleRecord "child_0", sampleRecord "child_1"]
      ∧ ((oneRecordView.filterByChild "child_0").recordUsage
          (sampleRecord "child_1")).m_filteredRecords
        ≠ ((oneRecordView.filterByChild "child_0").recordUsage
            (sampleRecord "child_1")).m_records.filter
              (fun r => decide (r.childProfileId = "child_0")) :=
  ⟨rfl, rfl, rfl, fun h => absurd (congrArg List.length h) (by decide)⟩

/-! ## The claims on single-prompt bodies and token counts, at the level of the service -/

/-- Claim C13. For every prompt, model and temperature, an accepted single-prompt send posts
exactly the body of the dialect of the selected provider, with one user message and the
effective model (the model of the request, or the default of the provider when it is
empty): the OpenAI family `model, messages, temperature, stream: false`; Anthropic
`model, messages, max_tokens: 4096, temperature`; Gemini `contents` with one user entry
and `generationConfig` with `temperature` and `maxOutputTokens: 4096`; Ollama
`model, messages, stream: false, options` with `temperature`. -/
theorem single_prompt_send_body (s : AIProviderService) (prompt model : String)
    (temperature : Rat)
    (hIdle : s.m_isProcessing = false)
    (hKey : providerRequiresApiKey s.m_currentProvider = true → s.m_apiKey ≠ "") :
    (s.m_currentProvider = "OpenAI" ∨ s.m_currentProvider = "DeepSeek"
          ∨ s.m_currentProvider = "GroqCloud" →
        (lastPosted (s.sendRequest prompt model temperature).1).map Prod.snd
          = some ⟨[("model", QJsonValue.string (if model = "" then specDefaultModel s.m_currentProvider else model)),
              ("messages", QJsonValue.array [QJsonValue.object
                [("role", QJsonValue.string "user"), ("content", QJsonValue.string prompt)]]),
              ("temperature", QJsonValue.double temperature),
              ("stream", QJsonValue.bool false)]⟩)
      ∧ (s.m_currentProvider = "Anthropic" →
        (lastPosted (s.sendRequest prompt model temperature).1).map Prod.snd
          = some ⟨[("model", QJsonValue.string (if model = "" then specDefaultModel s.m_currentProvider else model)),
              ("messages", QJsonValue.array [QJsonValue.object
                [("role", QJsonValue.string "user"), ("content", QJsonValue.string prompt)]]),
              ("max_tokens", QJsonValue.double 4096),
              ("temperature", QJsonValue.double temperature)]⟩)
      ∧ (s.m_currentProvider = "Gemini" →
        (lastPosted (s.sendRequest prompt model temperature).1).map Prod.snd
          = some ⟨[("contents", QJsonValue.array [QJsonValue.object
                [("role", QJsonValue.string "user"),
                  ("parts", QJsonValue.array [QJsonValue.object
                    [("text", QJsonValue.string prompt)]])]]),
              ("generationConfig", QJsonValue.object
                [("temperature", QJsonValue.double temperature),
                  ("maxOutputTokens", QJsonValue.double 4096)])]⟩)
      ∧ (s.m_currentProvider = "Ollama" →
        (lastPosted (s.sendRequest prompt model temperature).1).map Prod.snd
          = some ⟨[("model", QJsonValue.string (if model = "" then specDefaultModel s.m_currentProvider else model)),
              ("messages", QJsonValue.array [QJsonValue.object
                [("role", QJsonValue.string "user"), ("content", QJsonValue.string prompt)]]),
              ("stream", QJsonValue.bool false),
              ("options", QJsonValue.object
                [("temperature", QJsonValue.double temperature)])]⟩) := by
  obtain ⟨mgr, busy, provider, key, cur⟩ := s
  simp only at hIdle hKey
  subst hIdle
  refine ⟨?_, ?_, ?_, ?_⟩
  · rintro (rfl | rfl | rfl)
    all_goals
      have hk : key ≠ "" := hKey (by decide)
      simp [sendRequest, providerRequiresApiKey, lastPosted_postJson, hk, getDefaultModel,
        specDefaultModel]
      rfl
  · rintro rfl
    have hk : key ≠ "" := hKey (by decide)
    simp [sendRequest, providerRequiresApiKey, lastPosted_postJson, hk, getDefaultModel,
        specDefaultModel]
    rfl
  · rintro rfl
    have hk : key ≠ "" := hKey (by decide)
    simp [sendRequest, providerRequiresApiKey, lastPosted_postJson, hk, getDefaultModel,
        specDefaultModel]
    rfl
  · rintro rfl
    simp [sendRequest, providerRequiresApiKey, lastPosted_postJson, getDefaultModel,
      specDefaultModel]
    rfl

/-- Witness for C13: provider Ollama, prompt `Hi`, empty model and temperature `0.7` post the
body with model `llama3.2`. -/
theorem single_prompt_send_body_witness :
    (lastPosted (init.sendRequest "Hi" "" (7 / 10)).1).map Prod.snd
      = some ⟨[("model", QJsonValue.string "llama3.2"),
          ("messages", QJsonValue.array [QJsonValue.object
            [("role", QJsonValue.string "user"), ("content", QJsonValue.string "Hi")]]),
          ("stream", QJsonValue.bool false),
          ("options", QJsonValue.object [("temperature", QJsonValue.double (7 / 10))])]⟩ :=
  (single_prompt_send_body init "Hi" "" (7 / 10) rfl (by decide)).2.2.2 rfl

/-- The OpenAI parser on a body with reply text and a `usage` member, whatever the member holds. -/
theorem parseOpenAIResponse_reply_and_usage (obj : QJsonObject) (text : String)
    (hNoError : obj.contains "error" = false)
    (hp : openAIReplyPath obj = QJsonValue.string text)
    (hUsage : obj.contains "usage" = true) :
    parseOpenAIResponse (QJsonDocument.object obj)
      = [Signal.responseReceived text,
          Signal.tokensUsed ((obj.value "usage").toObject.value "prompt_tokens").toInt
            ((obj.value "usage").toObject.value "completion_tokens").toInt] := by
  obtain ⟨hc, hne⟩ := openAI_reply_present obj text hp
  unfold openAIReplyPath at hp
  unfold parseOpenAIResponse
  simp only [QJsonDocument.isObject, QJsonDocument.toObject, hNoError, hc, hp, hUsage,
    QJsonValue.toString, List.isEmpty_iff, hne]
  simp

/-- The Anthropic parser on a body with reply text and a `usage` member, whatever the member holds. -/
theorem parseAnthropicResponse_reply_and_usage (obj : QJsonObject) (text : String)
    (hNoError : obj.contains "error" = false)
    (hp : anthropicReplyPath obj = QJsonValue.string text)
    (hUsage : obj.contains "usage" = true) :
    parseAnthropicResponse (QJsonDocument.object obj)
      = [Signal.responseReceived text,
          Signal.tokensUsed ((obj.value "usage").toObject.value "input_tokens").toInt
            ((obj.value "usage").toObject.value "output_tokens").toInt] := by
  obtain ⟨hc, hne⟩ := anthropic_reply_present obj text hp
  unfold anthropicReplyPath at hp
  unfold parseAnthropicResponse
  simp only [QJsonDocument.isObject, QJsonDocument.toObject, hNoError, hc, hp, hUsage,
    QJsonValue.toString, List.isEmpty_iff, hne]
  simp

/-- The conversion `toInt` returns a whole number in the range of `int` as it is and `0` for
every other value. -/
theorem toInt_cases (v : QJsonValue) :
    (∃ i : Int, inIntRange i ∧ v = QJsonValue.double (i : Rat) ∧ v.toInt = i)
      ∨ ((∀ i : Int, inIntRange i → v ≠ QJsonValue.double (i : Rat)) ∧ v.toInt = 0) := by
  cases v with
  | double d =>
    by_cases h : d.den = 1 ∧ -2147483648 ≤ d.num ∧ d.num ≤ 2147483647
    · left
      refine ⟨d.num, ⟨h.2.1, h.2.2⟩, ?_, ?_⟩
      · congr 1
        exact (Rat.coe_int_num_of_den_eq_one h.1).symm
      · simp [QJsonValue.toInt, h]
    · right
      refine ⟨?_, by simp [QJsonValue.toInt, h]⟩
      intro i hi he
      injection he with he
      apply h
      subst he
      exact ⟨by simp, by simpa using hi.1, by simpa using hi.2⟩
  | _ => right; exact ⟨fun i _ he => (by cases he), rfl⟩

/-- Counterexample to claim C23. With the prompt count `12.5` in the usage object the
completion emits `tokensUsed(0, 7)`, and with a usage object without members it emits
`tokensUsed(0, 0)`: the reported counts are not in every case the members of `usage`. -/
theorem token_counts_counterexample :
    (openaiPending.handleNetworkReply (okReplyWith fractionalUsageBody)).2
        = [Signal.isProcessingChanged false, Signal.responseReceived "ok", Signal.tokensUsed 0 7]
      ∧ (fractionalUsageBody.value "usage").toObject.value "prompt_tokens"
        = QJsonValue.double twelveAndAHalf
      ∧ twelveAndAHalf * 2 = 25
      ∧ (openaiPending.handleNetworkReply (okReplyWith emptyUsageBody)).2
        = [Signal.isProcessingChanged false, Signal.responseReceived "ok", Signal.tokensUsed 0 0]
      ∧ (emptyUsageBody.value "usage").toObject.value "prompt_tokens" = QJsonValue.undefined := by
  refine ⟨by decide, rfl, ?_, by decide, rfl⟩
  rw [Rat.mul_def]
  decide

/-- Claim C23, amended. For a successful completion of the current handle whose object has
no top-level error, yields the reply text and has a `usage` member, the signals are
`isProcessingChanged`, `responseReceived(text)` and `tokensUsed(in, out)`, where `in` and
`out` are the `toInt` readings of `usage.prompt_tokens` and `usage.completion_tokens` for
the OpenAI family and of `usage.input_tokens` and `usage.output_tokens` for Anthropic;
`toInt` gives a whole number in the range of `int` as it is and `0` otherwise. With provider
Gemini or Ollama no completion emits `tokensUsed`. -/
theorem usage_follows_reply (s : AIProviderService) (reply : QNetworkReply) (obj : QJsonObject)
    (text : String)
    (hCurrent : s.m_currentReply = some reply.handle)
    (hOk : reply.error = NetworkError.NoError)
    (hDoc : reply.document = QJsonDocument.object obj)
    (hNoError : obj.contains "error" = false)
    (hUsage : obj.contains "usage" = true) :
    (s.m_currentProvider = "OpenAI" ∨ s.m_currentProvider = "DeepSeek"
          ∨ s.m_currentProvider = "GroqCloud" →
        openAIReplyPath obj = QJsonValue.string text →
        (s.handleNetworkReply reply).2
          = [Signal.isProcessingChanged false, Signal.responseReceived text,
              Signal.tokensUsed ((obj.value "usage").toObject.value "prompt_tokens").toInt
                ((obj.value "usage").toObject.value "completion_tokens").toInt])
      ∧ (s.m_currentProvider = "Anthropic" →
        anthropicReplyPath obj = QJsonValue.string text →
        (s.handleNetworkReply reply).2
          = [Signal.isProcessingChanged false, Signal.responseReceived text,
              Signal.tokensUsed ((obj.value "usage").toObject.value "input_tokens").toInt
                ((obj.value "usage").toObject.value "output_tokens").toInt])
      ∧ (∀ (g : AIProviderService) (anyReply : QNetworkReply) (a b : Int),
          g.m_currentProvider = "Gemini" ∨ g.m_currentProvider = "Ollama" →
          Signal.tokensUsed a b ∉ (g.handleNetworkReply anyReply).2)
      ∧ (∀ v : QJsonValue,
          (∃ i : Int, inIntRange i ∧ v = QJsonValue.double (i : Rat) ∧ v.toInt = i)
            ∨ ((∀ i : Int, inIntRange i → v ≠ QJsonValue.double (i : Rat)) ∧ v.toInt = 0)) := by
  refine ⟨?_, ?_, ?_, toInt_cases⟩
  · intro hProvider hp
    rw [handleNetworkReply_current_ok s reply hCurrent hOk, hDoc]
    unfold parseResponseFor
    rw [if_pos hProvider, parseOpenAIResponse_reply_and_usage obj text hNoError hp hUsage]
  · intro hProvider hp
    rw [handleNetworkReply_current_ok s reply hCurrent hOk, hDoc]
    unfold parseResponseFor
    rw [hProvider, if_neg (by decide), if_pos rfl,
      parseAnthropicResponse_reply_and_usage obj text hNoError hp hUsage]
  · intro g anyReply a b hProvider
    have hg := parseGeminiResponse_no_tokens anyReply.document a b
    have hl := parseOllamaResponse_no_tokens anyReply.document a b
    unfold handleNetworkReply
    dsimp only
    rcases hProvider with hProvider | hProvider <;> rw [hProvider] <;>
      split_ifs <;> simp_all

/-- Witness for C23 (amended): reply `ok` with 12 and 7 tokens gives `responseReceived("ok")`
then `tokensUsed(12, 7)`. -/
theorem usage_follows_reply_witness :
    (openaiPending.handleNetworkReply openAIOkReply).2
        = [Signal.isProcessingChanged false, Signal.responseReceived "ok", Signal.tokensUsed 12 7]
      ∧ (anthropicPending.handleNetworkReply anthropicOkReply).2
        = [Signal.isProcessingChanged false, Signal.responseReceived "ok", Signal.tokensUsed 12 7]
      ∧ Signal.tokensUsed 12 7 ∉ (ollamaPending.handleNetworkReply openAIOkReply).2 :=
  ⟨(usage_follows_reply openaiPending openAIOkReply openAIOkBody "ok"
      (by decide) rfl rfl (by decide) (by decide)).1 (by decide) rfl,
    (usage_follows_reply anthropicPending anthropicOkReply anthropicOkBody "ok"
      (by decide) rfl rfl (by decide) (by decide)).2.1 (by decide) rfl,
    (usage_follows_reply openaiPending openAIOkReply openAIOkBody "ok"
      (by decide) rfl rfl (by decide) (by decide)).2.2.1
      ollamaPending openAIOkReply 12 7 (by decide)⟩

end Moxie
